import Mathlib

/-! VXI-11 user library (`vxi11_user.c`): chunked writer, chunked reader, block codec,
client registry, send-and-receive, long-value query.

A shallow embedding of the non-WIN32 branch of `vxi11_user.c`.

* C strings and byte buffers are lists of byte values (`List Nat`).
* The RPC stubs `device_write_1` / `device_read_1` are the remote side.  They are an
  oracle that maps the number of the call (0, 1, 2, ... within one library call) and the
  parameter block to `none` (the stub did not return `RPC_SUCCESS`) or to the response
  structure.
* The `do ... while` loops take a step budget; a run that is still inside the loop when
  the budget is used up has `ret = none`.  Every run records the calls it issued.
* `unsigned int` is arithmetic modulo `2^32`, `size_t` / `unsigned long` modulo `2^64`;
  a `long` narrowed to `int` is wrapped to the signed 32-bit range and an
  `unsigned long` returned as `long` to the signed 64-bit range.  The negation of an
  error code (a `long`) is exact.
* `VXI11_NULL_WRITE_RESP` and `VXI11_NULL_READ_RESP` are used by `vxi11_user.c` but not
  defined in the header next to it; they are parameters (`nullW`, `nullR`).
* `malloc` is taken to succeed (the `return 1` paths are not modelled).
-/

namespace Vxi11

/-! ## Machine integers -/

/-- Value of an integer converted to `unsigned int`. -/
def u32 (x : Int) : Nat := (x % 4294967296).toNat

/-- Value of an integer converted to `size_t` / `unsigned long`. -/
def u64 (x : Int) : Nat := (x % 18446744073709551616).toNat

/-- Value of an integer converted to (signed, 32-bit) `int`. -/
def toInt32 (x : Int) : Int := (x + 2147483648) % 4294967296 - 2147483648

/-- Value of an integer converted to (signed, 64-bit) `long`. -/
def toInt64 (x : Int) : Int :=
  (x + 9223372036854775808) % 18446744073709551616 - 9223372036854775808

/-! ## Constants of `vxi11_user.h` and `vxi11_user.c` -/

/-- The header's `VXI11_DEFAULT_TIMEOUT`, in ms. -/
def VXI11_DEFAULT_TIMEOUT : Nat := 10000

/-- The header's `VXI11_READ_TIMEOUT`, in ms. -/
def VXI11_READ_TIMEOUT : Nat := 2000

/-- An end indicator has been read. -/
def RCV_END_BIT : Nat := 0x04

/-- A termchr is set in flags and a character which matches termChar is transferred. -/
def RCV_CHR_BIT : Nat := 0x02

/-- The requested number of bytes has been transferred. -/
def RCV_REQCNT_BIT : Nat := 0x01

/-! ## Data model

`Create_LinkResp`, `Device_WriteParms`, `Device_WriteResp`, `Device_ReadParms` and
`Device_ReadResp` are declared in the rpcgen output `vxi11.h`; only the fields that
`vxi11_user.c` touches are kept.  `maxRecvSize` and `size` are `unsigned long`,
`error` is the signed `Device_ErrorCode`, `data_len` is `unsigned int`. -/

/-- The fields of `Create_LinkResp` used by the library. -/
structure Create_LinkResp where
  lid : Int
  maxRecvSize : Nat
deriving DecidableEq, Repr

/-- The link part of a `VXI11_CLINK` (the `CLIENT *` is the oracle passed separately). -/
structure VXI11_CLINK where
  link : Create_LinkResp
deriving DecidableEq, Repr

/-- The parameter block of `device_write_1`; `data_val` is the offset of the fragment
inside `send_cmd` (the pointer `send_cmd + data_val`). -/
structure Device_WriteParms where
  lid : Int
  io_timeout : Nat
  lock_timeout : Nat
  flags : Nat
  data_len : Nat
  data_val : Nat
deriving DecidableEq, Repr

/-- The response block of `device_write_1`. -/
structure Device_WriteResp where
  error : Int
  size : Nat
deriving DecidableEq, Repr

/-- The remote side of `device_write_1`: call number and parameters to outcome. -/
abbrev WriteDevice := Nat → Device_WriteParms → Option Device_WriteResp

/-- One issued `device_write_1` call with its outcome. -/
abbrev WriteCall := Device_WriteParms × Option Device_WriteResp

/-- A run of `vxi11_send`: the content of `send_cmd` (the copy of the first `len` bytes
of `cmd` that the fragments point into), the value returned (`none` while the loop is
still running) and the device-write calls issued, in order. -/
structure SendRun where
  send_cmd : List Nat
  ret : Option Int
  calls : List WriteCall
deriving DecidableEq, Repr

/-- The bytes a device-write call carries: `data_len` bytes at `send_cmd + data_val`. -/
def fragment_bytes (send_cmd : List Nat) (p : Device_WriteParms) : List Nat :=
  (send_cmd.drop p.data_val).take p.data_len

/-! ## SEND FUNCTIONS -/

/-- The parameter block one iteration of the write loop builds from `bytes_left`. -/
def write_parms_of (clink : VXI11_CLINK) (len bytes_left : Nat) : Device_WriteParms :=
  if bytes_left ≤ clink.link.maxRecvSize then
    { lid := clink.link.lid
      io_timeout := VXI11_DEFAULT_TIMEOUT
      lock_timeout := VXI11_DEFAULT_TIMEOUT
      flags := 8
      data_len := bytes_left
      data_val := u64 ((len : Int) - bytes_left) }
  else
    { lid := clink.link.lid
      io_timeout := VXI11_DEFAULT_TIMEOUT
      lock_timeout := VXI11_DEFAULT_TIMEOUT
      flags := 0
      data_len := if clink.link.maxRecvSize > 0 then u32 clink.link.maxRecvSize else 4096
      data_val := u64 ((len : Int) - bytes_left) }

/-- The `do { ... } while (bytes_left > 0)` loop of `vxi11_send`; `n` is the number of
the next device-write call.  `nullW` is `VXI11_NULL_WRITE_RESP`, whose definition is not
in the header under `src/`. -/
def vxi11_send_loop (nullW : Int) (clink : VXI11_CLINK) (dev : WriteDevice)
    (send_cmd : List Nat) (len : Nat) : Nat → Nat → Nat → SendRun
  | 0, _, _ => { send_cmd := send_cmd, ret := none, calls := [] }
  | fuel + 1, n, bytes_left =>
    let write_parms := write_parms_of clink len bytes_left
    match dev n write_parms with
    | none => { send_cmd := send_cmd, ret := some (-nullW), calls := [(write_parms, none)] }
    | some write_resp =>
      if write_resp.error ≠ 0 then
        { send_cmd := send_cmd, ret := some (toInt32 (-write_resp.error)),
          calls := [(write_parms, some write_resp)] }
      else
        let bytes_left1 := u32 ((bytes_left : Int) - write_resp.size)
        if bytes_left1 > 0 then
          let r := vxi11_send_loop nullW clink dev send_cmd len fuel (n + 1) bytes_left1
          { send_cmd := send_cmd, ret := r.ret, calls := (write_parms, some write_resp) :: r.calls }
        else
          { send_cmd := send_cmd, ret := some 0, calls := [(write_parms, some write_resp)] }

/-- Model of `vxi11_send(clink, cmd, len)`: `unsigned int bytes_left = len`,
`memcpy(send_cmd, cmd, len)`, then the loop.  The bytes do not steer the loop; see
`fragment_bytes` for what a call carries. -/
def vxi11_send (nullW : Int) (clink : VXI11_CLINK) (dev : WriteDevice) (cmd : List Nat)
    (len : Nat) (fuel : Nat) : SendRun :=
  vxi11_send_loop nullW clink dev (cmd.take len) len fuel 0 (u32 len)

/-- A remote that completes every device-write with error code 0 and accepts the
whole fragment. -/
def accept_all : WriteDevice := fun _ p => some { error := 0, size := p.data_len }

/-- A remote that accepts the first fragment and answers every later device-write with
error code 11 (device locked by another link). -/
def locked_after_first : WriteDevice :=
  fun n p => if n = 0 then some { error := 0, size := p.data_len } else some { error := 11, size := 0 }

/-- The byte counts the remote reported as accepted, over the calls of a run. -/
def accepted_sizes (calls : List WriteCall) : List Nat :=
  calls.map (fun c => match c.2 with
    | some r => r.size
    | none => 0)

/-- The END flags (`write_parms.flags`) of the calls of a run. -/
def call_flags (calls : List WriteCall) : List Nat := calls.map (fun c => c.1.flags)

/-- The number of device-write calls of a run that starts with `bytes_left = bl` against
a remote that accepts every fragment in full: one call for an empty payload, else
`ceil (bl / M)`. -/
def fragments (M bl : Nat) : Nat := if bl = 0 then 1 else (bl + M - 1) / M

/-! ## RECEIVE FUNCTIONS -/

/-- The parameter block of `device_read_1`. -/
structure Device_ReadParms where
  lid : Int
  requestSize : Nat
  io_timeout : Nat
  lock_timeout : Nat
  flags : Nat
  termChar : Nat
deriving DecidableEq, Repr

/-- The response block of `device_read_1`; `data` holds the `data.data_len` bytes the
stub stores at `data.data_val`, and `reason` is the bit pattern of the reason flags. -/
structure Device_ReadResp where
  error : Int
  reason : Nat
  data : List Nat
deriving DecidableEq, Repr

/-- The remote side of `device_read_1`: call number and parameters to outcome. -/
abbrev ReadDevice := Nat → Device_ReadParms → Option Device_ReadResp

/-- One issued `device_read_1` call: where its data goes (`data_val = buffer + curr_pos`),
its parameters and its outcome. -/
structure ReadCall where
  data_val : Nat
  parms : Device_ReadParms
  resp : Option Device_ReadResp
deriving DecidableEq, Repr

/-- A run of `vxi11_receive_timeout`: the value returned (`none` while the loop is still
running), the final `curr_pos`, the memory starting at `buffer`, and the device-read
calls issued, in order. -/
structure ReceiveRun where
  ret : Option Int
  curr_pos : Nat
  buffer : List Nat
  calls : List ReadCall
deriving DecidableEq, Repr

/-- Memory `mem` after `src` has been stored at offset `off`. -/
def store_at (mem : List Nat) (off : Nat) (src : List Nat) : List Nat :=
  mem.take off ++ src ++ mem.drop (off + src.length)

/-- The test `(reason & RCV_END_BIT) || (reason & RCV_CHR_BIT)`. -/
def terminated (w : Device_ReadResp) : Bool :=
  (w.reason &&& RCV_END_BIT != 0) || (w.reason &&& RCV_CHR_BIT != 0)

/-- The parameter block one iteration of the read loop builds:
`requestSize = len - curr_pos`, the caller's timeout twice, no flags, no termChar. -/
def read_parms_of (clink : VXI11_CLINK) (len timeout curr_pos : Nat) : Device_ReadParms :=
  { lid := clink.link.lid
    requestSize := u64 ((len : Int) - curr_pos)
    io_timeout := timeout
    lock_timeout := timeout
    flags := 0
    termChar := 0 }

/-- The statement `if ((curr_pos + data_len) <= len) curr_pos += data_len;`. -/
def advance (len curr_pos data_len : Nat) : Nat :=
  if u64 (curr_pos + data_len) ≤ len then u64 (curr_pos + data_len) else curr_pos

/-- The `do { ... } while (1)` loop of `vxi11_receive_timeout`; `n` is the number of the
next device-read call.  `nullR` is `VXI11_NULL_READ_RESP`, whose definition is not in the
header under `src/`.  The negation of the `long` error code is exact. -/
def vxi11_receive_loop (nullR : Int) (clink : VXI11_CLINK) (dev : ReadDevice)
    (len timeout : Nat) : Nat → Nat → Nat → List Nat → ReceiveRun
  | 0, _, curr_pos, buffer => { ret := none, curr_pos := curr_pos, buffer := buffer, calls := [] }
  | fuel + 1, n, curr_pos, buffer =>
    let read_parms := read_parms_of clink len timeout curr_pos
    match dev n read_parms with
    | none =>
      { ret := some (-nullR), curr_pos := curr_pos, buffer := buffer,
        calls := [{ data_val := curr_pos, parms := read_parms, resp := none }] }
    | some read_resp =>
      let call : ReadCall := { data_val := curr_pos, parms := read_parms, resp := some read_resp }
      let buffer1 := store_at buffer curr_pos read_resp.data
      if read_resp.error ≠ 0 then
        { ret := some (-read_resp.error), curr_pos := curr_pos, buffer := buffer1, calls := [call] }
      else
        let curr_pos1 := advance len curr_pos read_resp.data.length
        if terminated read_resp then
          { ret := some (toInt64 curr_pos1), curr_pos := curr_pos1, buffer := buffer1,
            calls := [call] }
        else if curr_pos1 = len then
          { ret := some (-100), curr_pos := curr_pos1, buffer := buffer1, calls := [call] }
        else
          let r := vxi11_receive_loop nullR clink dev len timeout fuel (n + 1) curr_pos1 buffer1
          { ret := r.ret, curr_pos := r.curr_pos, buffer := r.buffer, calls := call :: r.calls }

/-- Model of `vxi11_receive_timeout(clink, buffer, len, timeout)`; `buffer` is the
content of the caller's memory before the call. -/
def vxi11_receive_timeout (nullR : Int) (clink : VXI11_CLINK) (dev : ReadDevice)
    (buffer : List Nat) (len timeout : Nat) (fuel : Nat) : ReceiveRun :=
  vxi11_receive_loop nullR clink dev len timeout fuel 0 0 buffer

/-- Model of `vxi11_receive(clink, buffer, len)`. -/
def vxi11_receive (nullR : Int) (clink : VXI11_CLINK) (dev : ReadDevice)
    (buffer : List Nat) (len : Nat) (fuel : Nat) : ReceiveRun :=
  vxi11_receive_timeout nullR clink dev buffer len VXI11_READ_TIMEOUT fuel

/-- A remote that answers the first device-read with 3 bytes and no reason flag and
every later one with error code 15 (I/O timeout). -/
def timeout_after_first : ReadDevice :=
  fun n _ => if n = 0 then some { error := 0, reason := 0, data := [65, 66, 67] }
    else some { error := 15, reason := 0, data := [] }

/-- A remote that answers the first device-read with 2 bytes and no reason flag, and
every later one with 4 bytes (more than the room that is left) and the END flag. -/
def overlong_then_end : ReadDevice :=
  fun n _ => if n = 0 then some { error := 0, reason := 0, data := [65, 66] }
    else some { error := 0, reason := 4, data := [67, 68, 69, 70] }

/-- A remote that answers the first device-read with 2 bytes and no reason flag, and
every later one with 1 byte and the END flag. -/
def fill_then_end : ReadDevice :=
  fun n _ => if n = 0 then some { error := 0, reason := 0, data := [65, 66] }
    else some { error := 0, reason := 4, data := [67] }

/-- The data lengths of the first `i` replies, added up. -/
def data_len_sum (rs : List Device_ReadResp) (i : Nat) : Nat :=
  ((rs.take i).map (fun w => w.data.length)).sum

/-- The data bytes of a reply sequence, one reply after the other. -/
def reply_bytes : List Device_ReadResp → List Nat
  | [] => []
  | w :: rs => w.data ++ reply_bytes rs

/-! ## Block codec -/

/-- The characters of a C string: the bytes before the first NUL. -/
def c_str (s : List Nat) : List Nat := s.takeWhile (fun c => c != 0)

/-- Model of `strlen`. -/
def strlen (s : List Nat) : Nat := (c_str s).length

/-- The output of the `%lu` conversion: the decimal digits, most significant first. -/
def fmt_lu (n : Nat) : List Nat :=
  if n = 0 then [48] else ((Nat.digits 10 n).reverse).map (fun d => d + 48)

/-- The output of the `%08lu` conversion: `%lu` padded with zeros to width 8. -/
def fmt_08lu (n : Nat) : List Nat :=
  List.replicate (8 - (fmt_lu n).length) 48 ++ fmt_lu n

/-- What `sprintf(out_buffer, "%s#8%08lu", cmd, len)` writes, terminating NUL included. -/
def sprintf_header (cmd : List Nat) (len : Nat) : List Nat :=
  c_str cmd ++ [35, 56] ++ fmt_08lu len ++ [0]

/-- The memory at `out_buffer` when `vxi11_send_data_block` calls `vxi11_send`: the
`sprintf` output overlaid, from offset `cmd_len + 10`, with `len` bytes of `buffer`. -/
def out_buffer_of (cmd buffer : List Nat) (len : Nat) : List Nat :=
  store_at (sprintf_header cmd len) (strlen cmd + 10) (buffer.take len)

/-- Model of `vxi11_send_data_block(clink, cmd, buffer, len)`: it hands `out_buffer` and
the length `cmd_len + 10 + len` to `vxi11_send`. -/
def vxi11_send_data_block (nullW : Int) (clink : VXI11_CLINK) (dev : WriteDevice)
    (cmd buffer : List Nat) (len : Nat) (fuel : Nat) : SendRun :=
  vxi11_send nullW clink dev (out_buffer_of cmd buffer len) (strlen cmd + 10 + len) fuel

/-- Model of `isspace` in the C locale. -/
def isspace (c : Nat) : Bool := c == 32 || (9 ≤ c && c ≤ 13)

/-- Model of `isdigit`. -/
def isdigit (c : Nat) : Bool := 48 ≤ c && c ≤ 57

/-- The number a run of decimal digits denotes. -/
def digits_value (ds : List Nat) : Nat := ds.foldl (fun a d => 10 * a + (d - 48)) 0

/-- A numeric `sscanf` conversion (`%<width>d`, `%<width>lu`): skip white space, take an
optional sign and decimal digits within the field width.  Gives the value read and the
rest of the input, or `none` when no digit matches (the argument is left unassigned). -/
def scan_number (width : Nat) (s : List Nat) : Option (Int × List Nat) :=
  match s.dropWhile isspace with
  | [] => none
  | c :: rest =>
    if c = 43 ∨ c = 45 then
      let ds := (rest.take (width - 1)).takeWhile isdigit
      if ds.isEmpty then none
      else some (if c = 45 then -(digits_value ds : Int) else (digits_value ds : Int),
        rest.drop ds.length)
    else
      let ds := ((c :: rest).take width).takeWhile isdigit
      if ds.isEmpty then none
      else some ((digits_value ds : Int), (c :: rest).drop ds.length)

/-- A result of the header parse and copy of `vxi11_receive_data_block`: the value
returned and the bytes copied to the start of the caller's buffer. -/
structure BlockResult where
  ret : Int
  copied : List Nat
deriving DecidableEq, Repr

/-- The part of `vxi11_receive_data_block` after the receive: the `#` test, the two
`sscanf` calls and the `memcpy`, on the content of `in_buffer`.  `none` stands for a run
that reads `ndigits` or `returned_bytes` while `sscanf` left it unassigned. -/
def data_block_decode (in_buffer : List Nat) : Option BlockResult :=
  if in_buffer.head? ≠ some 35 then some { ret := -3, copied := [] }
  else
    match scan_number 1 (in_buffer.drop 1) with
    | none => none
    | some (ndigits, rest) =>
      if ndigits > 0 then
        match scan_number ndigits.toNat rest with
        | none => none
        | some (v, _) =>
          let returned_bytes := u64 v
          some { ret := toInt64 returned_bytes
                 copied := (in_buffer.drop (ndigits.toNat + 2)).take returned_bytes }
      else some { ret := 0, copied := [] }

/-- Model of `vxi11_receive_data_block(clink, buffer, len, timeout)`; `in_buffer` is
the content of the freshly allocated `len + 12` bytes.  The outer `none` is a receive
loop still running, the inner one an unassigned `sscanf` argument. -/
def vxi11_receive_data_block (nullR : Int) (clink : VXI11_CLINK) (dev : ReadDevice)
    (in_buffer : List Nat) (len timeout : Nat) (fuel : Nat) : Option (Option BlockResult) :=
  let necessary_buffer_size := u64 (len + 12)
  let r := vxi11_receive_timeout nullR clink dev in_buffer necessary_buffer_size timeout fuel
  match r.ret with
  | none => none
  | some bytes =>
    let ret := toInt32 bytes
    if ret < 0 then some (some { ret := ret, copied := [] })
    else some (data_block_decode r.buffer)

/-! ## Client registry and session manager

`VXI11_CLIENTS` is the list of the `struct _vxi11_client_t` nodes, head first.  A
`CLIENT *` is a number that identifies the transport handle.  The calls into the RPC
layer (`clnt_create`, `create_link_1`, `destroy_link_1`, `clnt_destroy`) are recorded,
and their answers are arguments of the model.

`char address[20]` holds the 20 bytes `strncpy(client->address, address, 20)` wrote.
`strcmp` reads it as a C string; a field that is filled to its last byte (no NUL) is
read as its 20 characters, since the four bytes that follow `address[20]` in the
structure are padding that `calloc` zeroed. -/

/-- The node `struct _vxi11_client_t` (without its `next` pointer). -/
structure vxi11_client_t where
  address : List Nat
  client_address : Nat
  link_count : Int
deriving DecidableEq, Repr

/-- The session handle `struct CLINK`: the transport handle and the link. -/
structure CLINK where
  client : Nat
  link : Create_LinkResp
deriving DecidableEq, Repr

/-- A call into the RPC layer, with what it answered. -/
inductive RpcCall where
  | clnt_create (address : List Nat) (result : Option Nat)
  | create_link (client : Nat) (lockDevice : Bool) (lock_timeout : Nat)
      (device : Option (List Nat)) (resp : Option Create_LinkResp)
  | destroy_link (client : Nat) (lid : Int) (ok : Bool)
  | clnt_destroy (client : Nat)
deriving DecidableEq, Repr

/-- The `n` bytes `strncpy(dst, src, n)` writes: the characters of `src`, cut after `n`
or padded with NULs to `n`. -/
def strncpy (src : List Nat) (n : Nat) : List Nat :=
  (c_str src ++ List.replicate n 0).take n

/-- The test `strcmp(s, t) == 0`. -/
def strcmp_zero (s t : List Nat) : Bool := c_str s == c_str t

/-- The test `strncmp(s, t, n) == 0`. -/
def strncmp_zero (s t : List Nat) (n : Nat) : Bool := (c_str s).take n == (c_str t).take n

/-- The list after `f` has been applied to its first node that satisfies `p` (a field
update through the pointer the `while (tail)` scan stopped at). -/
def update_first (p : vxi11_client_t → Bool) (f : vxi11_client_t → vxi11_client_t) :
    List vxi11_client_t → List vxi11_client_t
  | [] => []
  | x :: xs => if p x then f x :: xs else x :: update_first p f xs

/-- The list after its first node that satisfies `p` has been unlinked
(`last->next = client->next`, or `VXI11_CLIENTS = client->next`). -/
def unlink_first (p : vxi11_client_t → Bool) : List vxi11_client_t → List vxi11_client_t
  | [] => []
  | x :: xs => if p x then xs else x :: unlink_first p xs

/-- The name `default_device` holds: `inst0`. -/
def default_device : List Nat := [105, 110, 115, 116, 48]

/-- Model of `_vxi11_open_link(clink, address, device)`: the status, the content of
`clink->link` (zeroed by `calloc`, filled by a completed `create_link_1`) and the call.
`answer = none` stands for a `create_link_1` that did not return `RPC_SUCCESS`. -/
def _vxi11_open_link (client : Nat) (device : Option (List Nat))
    (answer : Option Create_LinkResp) : Int × Create_LinkResp × RpcCall :=
  match answer with
  | none => (-2, { lid := 0, maxRecvSize := 0 },
      RpcCall.create_link client false VXI11_DEFAULT_TIMEOUT device none)
  | some resp => (0, resp,
      RpcCall.create_link client false VXI11_DEFAULT_TIMEOUT device (some resp))

/-- Model of `_vxi11_close_link(clink, address)`; `ok` tells whether `destroy_link_1`
returned `RPC_SUCCESS`. -/
def _vxi11_close_link (clink : CLINK) (ok : Bool) : Int × RpcCall :=
  if ok then (0, RpcCall.destroy_link clink.client clink.link.lid true)
  else (-1, RpcCall.destroy_link clink.client clink.link.lid false)

/-- What the RPC layer answers during one `vxi11_open_device`: the result of
`clnt_create` (`none` is `NULL`) and of `create_link_1` (`none` is a failed call). -/
structure OpenAnswers where
  clnt_create : Option Nat
  create_link : Option Create_LinkResp
deriving DecidableEq, Repr

/-- The outcome of `vxi11_open_device`: the status, `*clink` (`none` is `NULL`), the
registry after the call and the calls into the RPC layer. -/
structure OpenResult where
  ret : Int
  clink : Option CLINK
  clients : List vxi11_client_t
  calls : List RpcCall
deriving DecidableEq, Repr

/-- Model of `vxi11_open_device(clink, address, device)` on the registry
`VXI11_CLIENTS`.  `use_device` is computed as in the source; the source passes `device`,
not `use_device`, to `_vxi11_open_link`. -/
def vxi11_open_device (VXI11_CLIENTS : List vxi11_client_t) (address : List Nat)
    (device : Option (List Nat)) (rpc : OpenAnswers) : OpenResult :=
  let _use_device := match device with
    | some d => d
    | none => default_device
  match VXI11_CLIENTS.find? (fun tail => strcmp_zero address tail.address) with
  | none =>
    match rpc.clnt_create with
    | none =>
      { ret := 1, clink := none, clients := VXI11_CLIENTS,
        calls := [RpcCall.clnt_create address none] }
    | some c =>
      let opened := _vxi11_open_link c device rpc.create_link
      if opened.1 ≠ 0 then
        { ret := 1, clink := none, clients := VXI11_CLIENTS,
          calls := [RpcCall.clnt_create address (some c), opened.2.2, RpcCall.clnt_destroy c] }
      else
        { ret := 0, clink := some { client := c, link := opened.2.1 },
          clients := { address := strncpy address 20, client_address := c, link_count := 1 }
            :: VXI11_CLIENTS,
          calls := [RpcCall.clnt_create address (some c), opened.2.2] }
  | some client =>
    let opened := _vxi11_open_link client.client_address device rpc.create_link
    { ret := 0, clink := some { client := client.client_address, link := opened.2.1 },
      clients := update_first (fun tail => strcmp_zero address tail.address)
        (fun c => { c with link_count := c.link_count + 1 }) VXI11_CLIENTS,
      calls := [opened.2.2] }

/-- The outcome of `vxi11_close_device`: the status, the registry after the call and the
calls into the RPC layer. -/
structure CloseResult where
  ret : Int
  clients : List vxi11_client_t
  calls : List RpcCall
deriving DecidableEq, Repr

/-- Model of `vxi11_close_device(clink, address)` on the registry `VXI11_CLIENTS`;
`ok` tells whether `destroy_link_1` returns `RPC_SUCCESS`. -/
def vxi11_close_device (VXI11_CLIENTS : List vxi11_client_t) (clink : CLINK)
    (address : List Nat) (ok : Bool) : CloseResult :=
  match VXI11_CLIENTS.find? (fun tail => strncmp_zero address tail.address 20) with
  | none => { ret := -4, clients := VXI11_CLIENTS, calls := [] }
  | some client =>
    let closed := _vxi11_close_link clink ok
    if client.link_count > 1 then
      { ret := closed.1,
        clients := update_first (fun tail => strncmp_zero address tail.address 20)
          (fun c => { c with link_count := c.link_count - 1 }) VXI11_CLIENTS,
        calls := [closed.2] }
    else
      { ret := closed.1,
        clients := unlink_first (fun tail => strncmp_zero address tail.address 20) VXI11_CLIENTS,
        calls := [closed.2, RpcCall.clnt_destroy clink.client] }

/-- The transport handles torn down (`clnt_destroy`) among some RPC calls. -/
def destroyed (calls : List RpcCall) : List Nat :=
  calls.filterMap (fun c => match c with
    | RpcCall.clnt_destroy h => some h
    | _ => none)

/-- An address of 21 characters: twenty `A` and one `B`. -/
def long_address_b : List Nat := List.replicate 20 65 ++ [66]

/-- An address of 21 characters: twenty `A` and one `C`. -/
def long_address_c : List Nat := List.replicate 20 65 ++ [67]

/-- The address `10.0.0.1`. -/
def short_address : List Nat := [49, 48, 46, 48, 46, 48, 46, 49]

/-- Two opens and then two closes of one address, starting from the empty registry.
The RPC layer hands out the transport handles 1 and 2 and the links 7 and 8, and every
RPC call completes.  For each of the four library calls: its RPC calls and the registry
after it. -/
def opened_twice_closed_twice (address : List Nat) :
    List (List RpcCall × List vxi11_client_t) :=
  let o1 := vxi11_open_device [] address (some default_device)
    { clnt_create := some 1, create_link := some { lid := 7, maxRecvSize := 1024 } }
  let o2 := vxi11_open_device o1.clients address (some default_device)
    { clnt_create := some 2, create_link := some { lid := 8, maxRecvSize := 1024 } }
  match o1.clink, o2.clink with
  | some h1, some h2 =>
    let c1 := vxi11_close_device o2.clients h1 address true
    let c2 := vxi11_close_device c1.clients h2 address true
    [(o1.calls, o1.clients), (o2.calls, o2.clients), (c1.calls, c1.clients),
      (c2.calls, c2.clients)]
  | _, _ => []

/-! ## SEND AND RECEIVE FUNCTION -/

/-- A run of `vxi11_send_and_receive`: the value returned (`none` while a loop is
still running), the caller's buffer, and the runs of `vxi11_send` and of
`vxi11_receive_timeout` it made, in order. -/
structure QueryRun where
  ret : Option Int
  buf : List Nat
  sends : List SendRun
  receives : List ReceiveRun
deriving DecidableEq, Repr

/-- The `do { ... } while (...)` loop of `vxi11_send_and_receive`; `k` is the number of
the cycle, `wdev k` and `rdev k` are the remote as the `k`-th `vxi11_send` and the `k`-th
`vxi11_receive_timeout` meet it, and `fuel` is the step budget of each of them. -/
def vxi11_send_and_receive_loop (nullW nullR : Int) (clink : VXI11_CLINK)
    (wdev : Nat → WriteDevice) (rdev : Nat → ReadDevice) (cmd : List Nat)
    (len timeout fuel : Nat) : Nat → Nat → List Nat → QueryRun
  | 0, _, buf => { ret := none, buf := buf, sends := [], receives := [] }
  | cycles + 1, k, buf =>
    let s := vxi11_send nullW clink (wdev k) cmd (strlen cmd) fuel
    match s.ret with
    | none => { ret := none, buf := buf, sends := [s], receives := [] }
    | some ret =>
      if ret ≠ 0 ∧ ret ≠ -nullW then
        { ret := some (-1), buf := buf, sends := [s], receives := [] }
      else
        let r := vxi11_receive_timeout nullR clink (rdev k) buf len timeout fuel
        match r.ret with
        | none => { ret := none, buf := r.buffer, sends := [s], receives := [r] }
        | some bytes_returned =>
          if bytes_returned ≤ 0 ∧ bytes_returned > -nullR then
            { ret := some (-2), buf := r.buffer, sends := [s], receives := [r] }
          else if bytes_returned = -nullR ∨ ret = -nullW then
            let q := vxi11_send_and_receive_loop nullW nullR clink wdev rdev cmd len timeout
              fuel cycles (k + 1) r.buffer
            { ret := q.ret, buf := q.buf, sends := s :: q.sends, receives := r :: q.receives }
          else
            { ret := some 0, buf := r.buffer, sends := [s], receives := [r] }

/-- Model of `vxi11_send_and_receive(clink, cmd, buf, len, timeout)`; `cycles` is the
budget of send-then-receive cycles. -/
def vxi11_send_and_receive (nullW nullR : Int) (clink : VXI11_CLINK)
    (wdev : Nat → WriteDevice) (rdev : Nat → ReadDevice) (cmd buf : List Nat)
    (len timeout fuel cycles : Nat) : QueryRun :=
  vxi11_send_and_receive_loop nullW nullR clink wdev rdev cmd len timeout fuel cycles 0 buf

/-- A remote that answers every device-read with the three bytes `1.5` and the END
flag. -/
def reply_three_bytes : ReadDevice :=
  fun _ _ => some { error := 0, reason := 4, data := [49, 46, 53] }

/-- A remote that answers every device-read with one byte and no reason flag. -/
def reply_one_byte_unflagged : ReadDevice :=
  fun _ _ => some { error := 0, reason := 0, data := [49] }

/-- A remote whose device-read never completes. -/
def read_dropped : ReadDevice := fun _ _ => none

/-- A remote that drops the reads of cycles 0 and 1 and then answers `1.5` with END. -/
def dropped_twice_then_reply : Nat → ReadDevice :=
  fun k => if k < 2 then read_dropped else reply_three_bytes

/-- A remote that answers every device-read with the two bytes `#0` and the END flag. -/
def reply_hash_zero : ReadDevice :=
  fun _ _ => some { error := 0, reason := 4, data := [35, 48] }

/-- A remote that answers every device-read with error code 15 (I/O timeout). -/
def read_timeout : ReadDevice :=
  fun _ _ => some { error := 15, reason := 0, data := [] }

/-- A remote that answers every device-read with no data and the END flag. -/
def reply_empty : ReadDevice :=
  fun _ _ => some { error := 0, reason := 4, data := [] }

/-! ## FUNCTIONS TO RETURN A LONG INTEGER VALUE SENT AS RESPONSE TO A QUERY -/

/-- The range of `long`: what `strtol` returns for a value outside it is `LONG_MAX` or
`LONG_MIN`. -/
def clamp_long (x : Int) : Int :=
  if x > 9223372036854775807 then 9223372036854775807
  else if x < -9223372036854775808 then -9223372036854775808
  else x

/-- Model of `strtol(nptr, (char **)NULL, 10)`: skip white space, take an optional sign
and the decimal digits that follow; no digit gives 0.  A buffer without NUL is read to
its end. -/
def strtol (nptr : List Nat) : Int :=
  match nptr.dropWhile isspace with
  | [] => 0
  | c :: rest =>
    if c = 45 then clamp_long (-(digits_value (rest.takeWhile isdigit) : Int))
    else if c = 43 then clamp_long (digits_value (rest.takeWhile isdigit) : Int)
    else clamp_long (digits_value ((c :: rest).takeWhile isdigit) : Int)

/-- Model of `vxi11_obtain_long_value_timeout(clink, cmd, timeout)`: `buf` is 50 zero
bytes (`memset(buf, 0, 50)`); `none` stands for a `vxi11_send_and_receive` that is still
running. -/
def vxi11_obtain_long_value_timeout (nullW nullR : Int) (clink : VXI11_CLINK)
    (wdev : Nat → WriteDevice) (rdev : Nat → ReadDevice) (cmd : List Nat)
    (timeout fuel cycles : Nat) : Option Int :=
  let q := vxi11_send_and_receive nullW nullR clink wdev rdev cmd (List.replicate 50 0) 50
    timeout fuel cycles
  match q.ret with
  | none => none
  | some r => if r ≠ 0 then some 0 else some (strtol q.buf)

/-- Model of `vxi11_obtain_long_value(clink, cmd)`. -/
def vxi11_obtain_long_value (nullW nullR : Int) (clink : VXI11_CLINK)
    (wdev : Nat → WriteDevice) (rdev : Nat → ReadDevice) (cmd : List Nat)
    (fuel cycles : Nat) : Option Int :=
  vxi11_obtain_long_value_timeout nullW nullR clink wdev rdev cmd VXI11_READ_TIMEOUT fuel cycles

/-- The text `nonsense-reply`. -/
def nonsense_reply : List Nat :=
  [110, 111, 110, 115, 101, 110, 115, 101, 45, 114, 101, 112, 108, 121]

/-- A remote that answers every device-read with `nonsense-reply` and the END flag. -/
def reply_nonsense : ReadDevice :=
  fun _ _ => some { error := 0, reason := 4, data := nonsense_reply }

/-- A remote that answers every device-read with the text `-42` followed by a line feed,
and the END flag. -/
def reply_minus_42 : ReadDevice :=
  fun _ _ => some { error := 0, reason := 4, data := [45, 52, 50, 10] }

/-! ## Remotes that accept a part of a fragment, and blocks with a declared length -/

/-- A remote that completes every device-write with error code 0 and reports two bytes
accepted, whatever the length of the fragment. -/
def accept_two : WriteDevice := fun _ _ => some { error := 0, size := 2 }

/-- A remote that completes every device-write with error code 0 and accepts one byte
of a non-empty fragment. -/
def accept_one_byte : WriteDevice := fun _ p => some { error := 0, size := min 1 p.data_len }

/-- The bytes the remote reported as accepted, over the calls of a run: of each
fragment the first `write_resp.size` bytes, in the order of the calls. -/
def accepted_bytes (send_cmd : List Nat) : List WriteCall → List Nat
  | [] => []
  | (p, some r) :: cs => (fragment_bytes send_cmd p).take r.size ++ accepted_bytes send_cmd cs
  | (_, none) :: cs => accepted_bytes send_cmd cs

/-- A remote that answers a device-read with the block `#15hello` (a five-byte payload)
and the END reason. -/
def reply_block_hello : ReadDevice :=
  fun _ _ => some { error := 0, reason := 4, data := [35, 49, 53, 104, 101, 108, 108, 111] }

/-- A remote that answers a device-read with `#19ab` and the END reason: the header
announces nine bytes, two follow. -/
def reply_block_short : ReadDevice :=
  fun _ _ => some { error := 0, reason := 4, data := [35, 49, 57, 97, 98] }

/-! ## Machine-integer and arithmetic facts -/

theorem u32_sub_of_le (a b : Nat) (hb : b ≤ a) (ha : a < 4294967296) :
    u32 ((a : Int) - b) = a - b := by
  unfold u32; omega

theorem u32_of_lt (a : Nat) (ha : a < 4294967296) : u32 (a : Int) = a := by
  unfold u32; omega

theorem ceil_div_one (bl M : Nat) (h1 : 0 < bl) (h2 : bl ≤ M) : (bl + M - 1) / M = 1 := by
  apply Nat.div_eq_of_lt_le <;> omega

theorem ceil_div_step (bl M : Nat) (hM : 0 < M) (h : M < bl) :
    (bl + M - 1) / M = (bl - M + M - 1) / M + 1 := by
  have : bl + M - 1 = (bl - M + M - 1) + M := by omega
  rw [this, Nat.add_div_right _ hM]

/-! ## Chunked writer -/

theorem fragments_pos (M bl : Nat) (hM : 0 < M) : 0 < fragments M bl := by
  unfold fragments
  split
  · exact Nat.one_pos
  · exact Nat.div_pos (by omega) hM

theorem send_loop_accept_all (nullW : Int) (clink : VXI11_CLINK) (sc : List Nat) (len : Nat)
    (hM : 0 < clink.link.maxRecvSize) :
    ∀ (fuel n bl : Nat), bl < fuel → bl < 4294967296 →
      (vxi11_send_loop nullW clink accept_all sc len fuel n bl).ret = some 0 ∧
      (vxi11_send_loop nullW clink accept_all sc len fuel n bl).calls.length
        = fragments clink.link.maxRecvSize bl ∧
      call_flags (vxi11_send_loop nullW clink accept_all sc len fuel n bl).calls
        = List.replicate (fragments clink.link.maxRecvSize bl - 1) 0 ++ [8] ∧
      (accepted_sizes (vxi11_send_loop nullW clink accept_all sc len fuel n bl).calls).sum = bl := by
  intro fuel
  induction fuel with
  | zero => intro n bl h; omega
  | succ fuel ih =>
    intro n bl hfuel hbl
    by_cases hle : bl ≤ clink.link.maxRecvSize
    · have hp : (write_parms_of clink len bl).data_len = bl ∧
          (write_parms_of clink len bl).flags = 8 := by
        simp [write_parms_of, hle]
      have hz : u32 0 = 0 := by decide
      have hf : fragments clink.link.maxRecvSize bl = 1 := by
        unfold fragments
        split
        · rfl
        · exact ceil_div_one _ _ (by omega) hle
      simp [vxi11_send_loop, accept_all, hp.1, hp.2, hz, hf, call_flags, accepted_sizes]
    · have hlt : clink.link.maxRecvSize < bl := by omega
      have hM32 : u32 (clink.link.maxRecvSize : Int) = clink.link.maxRecvSize :=
        u32_of_lt _ (by omega)
      have hp : (write_parms_of clink len bl).data_len = clink.link.maxRecvSize ∧
          (write_parms_of clink len bl).flags = 0 := by
        simp [write_parms_of, hle, hM, hM32]
      have hs : u32 ((bl : Int) - clink.link.maxRecvSize) = bl - clink.link.maxRecvSize :=
        u32_sub_of_le _ _ (by omega) hbl
      have hpos : 0 < bl - clink.link.maxRecvSize := by omega
      obtain ⟨h1, h2, h3, h4⟩ := ih (n + 1) (bl - clink.link.maxRecvSize) (by omega) (by omega)
      have hf : fragments clink.link.maxRecvSize bl
          = fragments clink.link.maxRecvSize (bl - clink.link.maxRecvSize) + 1 := by
        unfold fragments
        rw [if_neg (by omega), if_neg (by omega)]
        exact ceil_div_step _ _ hM hlt
      simp only [vxi11_send_loop, accept_all, hp.1, hs, hpos, if_true, ne_eq, not_true,
        if_false, List.length_cons, call_flags, accepted_sizes, List.map_cons, List.sum_cons]
      simp only [call_flags, accepted_sizes, accept_all] at h1 h2 h3 h4
      refine ⟨h1, ?_, ?_, ?_⟩
      · rw [h2, hf]
      · have hfp := fragments_pos clink.link.maxRecvSize (bl - clink.link.maxRecvSize) hM
        obtain ⟨k, hk⟩ : ∃ k, fragments clink.link.maxRecvSize (bl - clink.link.maxRecvSize)
            = k + 1 := ⟨_, (Nat.succ_pred_eq_of_pos hfp).symm⟩
        rw [h3, hf, hp.2, hk]
        simp [List.replicate_succ]
      · rw [h4]; omega

/-- C1 (as amended): for a payload of length `len < 2^32` (`bytes_left` is an
`unsigned int`), a link with `maxRecvSize > 0` and a remote that accepts every fragment
in full, `vxi11_send` returns 0 after exactly `ceil (len / maxRecvSize)` device-write
calls when `len > 0` and after exactly one (zero-length) call when `len = 0`; the last
call and only the last has `flags = 8`, all earlier ones have `flags = 0`, and the
accepted byte counts add up to `len`. -/
theorem vxi11_send_issues_ceil_fragments (nullW : Int) (clink : VXI11_CLINK) (dev : WriteDevice)
    (cmd : List Nat) (len fuel : Nat) (hM : 0 < clink.link.maxRecvSize) (hlen : len < 4294967296)
    (hfuel : len < fuel)
    (hdev : ∀ n p, dev n p = some { error := 0, size := p.data_len }) :
    (vxi11_send nullW clink dev cmd len fuel).ret = some 0 ∧
    (vxi11_send nullW clink dev cmd len fuel).calls.length
      = (if len = 0 then 1 else (len + clink.link.maxRecvSize - 1) / clink.link.maxRecvSize) ∧
    call_flags (vxi11_send nullW clink dev cmd len fuel).calls
      = List.replicate ((vxi11_send nullW clink dev cmd len fuel).calls.length - 1) 0 ++ [8] ∧
    (accepted_sizes (vxi11_send nullW clink dev cmd len fuel).calls).sum = len := by
  have hd : dev = accept_all := by
    funext n p
    rw [hdev]; rfl
  subst hd
  have h32 : u32 (len : Int) = len := u32_of_lt _ hlen
  obtain ⟨h1, h2, h3, h4⟩ := send_loop_accept_all nullW clink (cmd.take len) len hM fuel 0 len hfuel hlen
  unfold vxi11_send
  rw [h32]
  refine ⟨h1, h2, ?_, h4⟩
  rw [h3, h2]

/-- Witness for C1: five bytes over a link with `maxRecvSize = 2` go out in three
fragments, the third one flagged END. -/
theorem vxi11_send_issues_ceil_fragments_witness :
    (vxi11_send 51 ⟨⟨0, 2⟩⟩ accept_all [104, 101, 108, 108, 111] 5 6).ret = some 0 ∧
    (vxi11_send 51 ⟨⟨0, 2⟩⟩ accept_all [104, 101, 108, 108, 111] 5 6).calls.length = 3 ∧
    call_flags (vxi11_send 51 ⟨⟨0, 2⟩⟩ accept_all [104, 101, 108, 108, 111] 5 6).calls = [0, 0, 8] ∧
    (accepted_sizes (vxi11_send 51 ⟨⟨0, 2⟩⟩ accept_all [104, 101, 108, 108, 111] 5 6).calls).sum = 5 := by
  have h := vxi11_send_issues_ceil_fragments 51 ⟨⟨0, 2⟩⟩ accept_all [104, 101, 108, 108, 111] 5 6 (by decide) (by decide)
    (by decide) (fun _ _ => rfl)
  obtain ⟨h1, h2, h3, h4⟩ := h
  refine ⟨h1, ?_, ?_, h4⟩
  · rw [h2]; decide
  · rw [h3, h2]; decide

/-- Counterexample to C1 as stated: for `len = 0` and `maxRecvSize = 1` the writer
returns 0 after one device-write call, while `ceil (0 / 1) = 0`. -/
theorem vxi11_send_empty_payload_one_call :
    (vxi11_send 51 ⟨⟨0, 1⟩⟩ accept_all [] 0 1).ret = some 0 ∧
    (vxi11_send 51 ⟨⟨0, 1⟩⟩ accept_all [] 0 1).calls.length = 1 ∧
    (vxi11_send 51 ⟨⟨0, 1⟩⟩ accept_all [] 0 1).calls.length ≠ (0 + 1 - 1) / 1 := by
  decide

theorem send_loop_runs_on (nullW : Int) (clink : VXI11_CLINK) (dev : WriteDevice)
    (sc : List Nat) (len : Nat) :
    ∀ (fuel n bl : Nat), (vxi11_send_loop nullW clink dev sc len fuel n bl).ret = none →
      (vxi11_send_loop nullW clink dev sc len fuel n bl).calls.length = fuel := by
  intro fuel
  induction fuel with
  | zero => intro n bl _; rfl
  | succ fuel ih =>
    intro n bl
    rw [vxi11_send_loop]
    cases dev n (write_parms_of clink len bl) with
    | none => simp
    | some w =>
      simp only []
      split
      · simp
      · split
        · intro h
          simp only [List.length_cons]
          rw [ih _ _ h]
        · simp

theorem send_loop_zero_maxRecvSize (nullW lid : Int) (sc : List Nat) (len : Nat) :
    ∀ (fuel n bl : Nat), bl % 4096 = 1 → bl < 4294967296 →
      (vxi11_send_loop nullW ⟨⟨lid, 0⟩⟩ accept_all sc len fuel n bl).ret = none := by
  intro fuel
  induction fuel with
  | zero => intro n bl _ _; rfl
  | succ fuel ih =>
    intro n bl hmod hbl
    have hp : (write_parms_of ⟨⟨lid, 0⟩⟩ len bl).data_len = 4096 := by
      have : ¬ bl ≤ 0 := by omega
      simp [write_parms_of, this]
    have hs : 0 < u32 ((bl : Int) - 4096) ∧ u32 ((bl : Int) - 4096) % 4096 = 1 ∧
        u32 ((bl : Int) - 4096) < 4294967296 := by
      unfold u32; omega
    have hrec := ih (n + 1) (u32 ((bl : Int) - 4096)) hs.2.1 hs.2.2
    simp only [vxi11_send_loop, accept_all, hp, ne_eq, not_true, if_false]
    simp [hs.1, hrec]

/-- C2 (the code at the failing input): with `maxRecvSize = 0`, a one-byte payload and
a remote that accepts every fragment in full, the write loop never leaves: whatever the
step budget, `vxi11_send` has not returned and has spent the whole budget on device-write
calls.  Each fragment is announced as 4096 bytes, so `bytes_left` stays congruent to 1
modulo 4096 and never becomes 0. -/
theorem vxi11_send_zero_maxRecvSize_never_returns (nullW lid : Int) (fuel : Nat) :
    (vxi11_send nullW ⟨⟨lid, 0⟩⟩ accept_all [65] 1 fuel).ret = none ∧
    (vxi11_send nullW ⟨⟨lid, 0⟩⟩ accept_all [65] 1 fuel).calls.length = fuel := by
  have h : (vxi11_send nullW ⟨⟨lid, 0⟩⟩ accept_all [65] 1 fuel).ret = none := by
    unfold vxi11_send
    exact send_loop_zero_maxRecvSize nullW lid _ 1 fuel 0 (u32 1) (by decide) (by decide)
  refine ⟨h, ?_⟩
  unfold vxi11_send at h ⊢
  exact send_loop_runs_on nullW _ accept_all _ 1 fuel 0 (u32 1) h

/-- C3 (the code at the failing input): for a one-byte payload the first device-write
with `maxRecvSize = 0` has `flags = 0` and `data_len = 4096`, while with
`maxRecvSize = 4096` it has `flags = 8` and `data_len = 1`. -/
theorem vxi11_send_zero_maxRecvSize_first_fragment :
    (vxi11_send 51 ⟨⟨0, 0⟩⟩ accept_all [65] 1 1).calls.map Prod.fst
      = [{ lid := 0, io_timeout := 10000, lock_timeout := 10000, flags := 0,
           data_len := 4096, data_val := 0 }] ∧
    (vxi11_send 51 ⟨⟨0, 4096⟩⟩ accept_all [65] 1 1).calls.map Prod.fst
      = [{ lid := 0, io_timeout := 10000, lock_timeout := 10000, flags := 8,
           data_len := 1, data_val := 0 }] := by
  decide

theorem toInt32_neg_of_range (e : Int) (h1 : -2147483648 < e) (h2 : e < 2147483648) :
    toInt32 (-e) = -e := by
  unfold toInt32; omega

theorem send_loop_first_failure (nullW : Int) (clink : VXI11_CLINK) (dev : WriteDevice)
    (sc : List Nat) (len : Nat) (hW : nullW ≠ 0)
    (hE : ∀ n p w, dev n p = some w → -2147483648 < w.error ∧ w.error < 2147483648) :
    ∀ (fuel n bl : Nat),
      (∀ i c, (vxi11_send_loop nullW clink dev sc len fuel n bl).calls[i]? = some c →
        c.2 = none →
          i + 1 = (vxi11_send_loop nullW clink dev sc len fuel n bl).calls.length ∧
          (vxi11_send_loop nullW clink dev sc len fuel n bl).ret = some (-nullW)) ∧
      (∀ i c w, (vxi11_send_loop nullW clink dev sc len fuel n bl).calls[i]? = some c →
        c.2 = some w → w.error ≠ 0 →
          i + 1 = (vxi11_send_loop nullW clink dev sc len fuel n bl).calls.length ∧
          (vxi11_send_loop nullW clink dev sc len fuel n bl).ret = some (-w.error)) ∧
      ((vxi11_send_loop nullW clink dev sc len fuel n bl).ret = some 0 →
        ∀ c ∈ (vxi11_send_loop nullW clink dev sc len fuel n bl).calls,
          ∃ w, c.2 = some w ∧ w.error = 0) := by
  intro fuel
  induction fuel with
  | zero => intro n bl; simp [vxi11_send_loop]
  | succ fuel ih =>
    intro n bl
    rw [vxi11_send_loop]
    cases hd : dev n (write_parms_of clink len bl) with
    | none =>
      refine ⟨?_, ?_, ?_⟩
      · intro i c hi hc
        cases i with
        | zero => simp
        | succ j => simp at hi
      · intro i c w hi hc hw
        cases i with
        | zero =>
          simp at hi
          subst hi
          simp at hc
        | succ j => simp at hi
      · intro h
        simp at h
        omega
    | some w0 =>
      have hr := hE _ _ _ hd
      by_cases he : w0.error = 0
      · by_cases hpos : u32 ((bl : Int) - w0.size) > 0
        · obtain ⟨a, b, c⟩ := ih (n + 1) (u32 ((bl : Int) - w0.size))
          simp only [he, ne_eq, not_true, if_false, hpos, if_true]
          refine ⟨?_, ?_, ?_⟩
          · intro i c hi hc
            cases i with
            | zero =>
              simp at hi
              subst hi
              simp at hc
            | succ j =>
              simp only [List.getElem?_cons_succ] at hi
              have := a j c hi hc
              simp only [List.length_cons]
              exact ⟨by omega, this.2⟩
          · intro i c w hi hc hw
            cases i with
            | zero =>
              simp at hi
              subst hi
              simp at hc
              subst hc
              exact absurd he hw
            | succ j =>
              simp only [List.getElem?_cons_succ] at hi
              have := b j c w hi hc hw
              simp only [List.length_cons]
              exact ⟨by omega, this.2⟩
          · intro h c' hc'
            simp only [List.mem_cons] at hc'
            rcases hc' with rfl | hc'
            · exact ⟨w0, rfl, he⟩
            · exact c h c' hc'
        · simp only [he, ne_eq, not_true, if_false, hpos]
          refine ⟨?_, ?_, ?_⟩
          · intro i c hi hc
            cases i with
            | zero =>
              simp at hi
              subst hi
              simp at hc
            | succ j => simp at hi
          · intro i c w hi hc hw
            cases i with
            | zero =>
              simp at hi
              subst hi
              simp at hc
              subst hc
              exact absurd he hw
            | succ j => simp at hi
          · intro _ c' hc'
            simp at hc'
            subst hc'
            exact ⟨w0, rfl, he⟩
      · simp only [ne_eq, he, not_false_eq_true, if_true]
        have hneg := toInt32_neg_of_range w0.error hr.1 hr.2
        refine ⟨?_, ?_, ?_⟩
        · intro i c hi hc
          cases i with
          | zero =>
            simp at hi
            subst hi
            simp at hc
          | succ j => simp at hi
        · intro i c w hi hc hw
          cases i with
          | zero =>
            simp at hi
            subst hi
            simp at hc
            subst hc
            simp [hneg]
          | succ j => simp at hi
        · intro h
          simp [hneg] at h
          exact absurd h he

theorem send_loop_calls_outcome (nullW : Int) (clink : VXI11_CLINK) (dev : WriteDevice)
    (sc : List Nat) (len : Nat) :
    ∀ (fuel n bl : Nat) (i : Nat) (c : WriteCall),
      (vxi11_send_loop nullW clink dev sc len fuel n bl).calls[i]? = some c →
        c.2 = dev (n + i) c.1 := by
  intro fuel
  induction fuel with
  | zero => intro n bl i c h; simp [vxi11_send_loop] at h
  | succ fuel ih =>
    intro n bl i c h
    rw [vxi11_send_loop] at h
    cases hd : dev n (write_parms_of clink len bl) with
    | none =>
      simp only [hd] at h
      cases i with
      | zero => simp at h; subst h; simp [hd]
      | succ j => simp at h
    | some w0 =>
      simp only [hd] at h
      split at h
      · cases i with
        | zero => simp at h; subst h; simp [hd]
        | succ j => simp at h
      · split at h
        · cases i with
          | zero => simp at h; subst h; simp [hd]
          | succ j =>
            simp only [List.getElem?_cons_succ] at h
            have := ih (n + 1) _ j c h
            rw [this]
            congr 1
            omega
        · cases i with
          | zero => simp at h; subst h; simp [hd]
          | succ j => simp at h

/-- C4: `vxi11_send` stops at the first failing fragment.  A device-write call whose RPC
does not complete is the last call issued and the result is `-VXI11_NULL_WRITE_RESP`; a
call answered with a nonzero error code `e` is the last call issued and the result is
`-e`; and the result is 0 only if every issued call completed with error code 0.  Each
recorded outcome is the remote's answer to that call, and a run that has not returned
has used its whole step budget on calls.  (`VXI11_NULL_WRITE_RESP` is nonzero and error
codes are 32-bit values above `INT_MIN`.) -/
theorem vxi11_send_stops_at_first_failure (nullW : Int) (clink : VXI11_CLINK)
    (dev : WriteDevice) (cmd : List Nat) (len fuel : Nat) (hW : nullW ≠ 0)
    (hE : ∀ n p w, dev n p = some w → -2147483648 < w.error ∧ w.error < 2147483648) :
    (∀ i c, (vxi11_send nullW clink dev cmd len fuel).calls[i]? = some c →
      c.2 = dev i c.1) ∧
    (∀ i c, (vxi11_send nullW clink dev cmd len fuel).calls[i]? = some c → c.2 = none →
      i + 1 = (vxi11_send nullW clink dev cmd len fuel).calls.length ∧
      (vxi11_send nullW clink dev cmd len fuel).ret = some (-nullW)) ∧
    (∀ i c w, (vxi11_send nullW clink dev cmd len fuel).calls[i]? = some c →
      c.2 = some w → w.error ≠ 0 →
        i + 1 = (vxi11_send nullW clink dev cmd len fuel).calls.length ∧
        (vxi11_send nullW clink dev cmd len fuel).ret = some (-w.error)) ∧
    ((vxi11_send nullW clink dev cmd len fuel).ret = some 0 →
      ∀ c ∈ (vxi11_send nullW clink dev cmd len fuel).calls,
        ∃ w, c.2 = some w ∧ w.error = 0) ∧
    ((vxi11_send nullW clink dev cmd len fuel).ret = none →
      (vxi11_send nullW clink dev cmd len fuel).calls.length = fuel) := by
  obtain ⟨a, b, c⟩ :=
    send_loop_first_failure nullW clink dev (cmd.take len) len hW hE fuel 0 (u32 len)
  refine ⟨?_, a, b, c, send_loop_runs_on nullW clink dev (cmd.take len) len fuel 0 (u32 len)⟩
  intro i c h
  have := send_loop_calls_outcome nullW clink dev (cmd.take len) len fuel 0 (u32 len) i c h
  simpa using this

/-- Witness for C4: the second fragment is answered with error code 11, and the
writer returns -11 after two calls. -/
theorem vxi11_send_stops_at_first_failure_witness :
    (51 : Int) ≠ 0 ∧
    (vxi11_send 51 ⟨⟨0, 2⟩⟩ locked_after_first [104, 101, 108, 108, 111] 5 6).calls.length = 2 ∧
    (vxi11_send 51 ⟨⟨0, 2⟩⟩ locked_after_first [104, 101, 108, 108, 111] 5 6).ret
      = some (-11) := by
  have hE : ∀ n p w, locked_after_first n p = some w →
      -2147483648 < w.error ∧ w.error < 2147483648 := by
    intro n p w h
    unfold locked_after_first at h
    split at h <;> (simp at h; subst h; simp)
  have h := (vxi11_send_stops_at_first_failure 51 ⟨⟨0, 2⟩⟩ locked_after_first
    [104, 101, 108, 108, 111] 5 6 (by decide) hE).2.2.1 1
    (⟨0, 10000, 10000, 0, 2, 2⟩, some ⟨11, 0⟩) ⟨11, 0⟩ (by decide) rfl (by decide)
  exact ⟨by decide, h.1.symm, h.2⟩

/-! ## Chunked reader: structure of a run -/

theorem advance_le (len cp d : Nat) (h : cp ≤ len) : advance len cp d ≤ len := by
  unfold advance
  split <;> assumption

theorem request_size_exact (clink : VXI11_CLINK) (len timeout cp : Nat)
    (hlen : len < 18446744073709551616) (h : cp ≤ len) :
    (read_parms_of clink len timeout cp).requestSize + cp = len := by
  simp only [read_parms_of]
  unfold u64; omega

theorem receive_loop_invariant (nullR : Int) (clink : VXI11_CLINK) (dev : ReadDevice)
    (len timeout : Nat) (hlen : len < 18446744073709551616) :
    ∀ (fuel n cp : Nat) (buffer : List Nat), cp ≤ len →
      (vxi11_receive_loop nullR clink dev len timeout fuel n cp buffer).curr_pos ≤ len ∧
      ∀ c ∈ (vxi11_receive_loop nullR clink dev len timeout fuel n cp buffer).calls,
        c.data_val ≤ len ∧ c.parms.requestSize + c.data_val = len := by
  intro fuel
  induction fuel with
  | zero => intro n cp buffer h; simpa [vxi11_receive_loop] using h
  | succ fuel ih =>
    intro n cp buffer hcp
    have hreq := request_size_exact clink len timeout cp hlen hcp
    rw [vxi11_receive_loop]
    cases hd : dev n _ with
    | none => simp [hcp, hreq]
    | some w0 =>
      have hadv := advance_le len cp w0.data.length hcp
      simp only []
      split
      · simp [hcp, hreq]
      · split
        · simp [hcp, hreq, hadv]
        · split
          · simp [hcp, hreq, hadv]
          · obtain ⟨a, b⟩ := ih (n + 1) _ (store_at buffer cp w0.data) hadv
            refine ⟨a, ?_⟩
            intro c hc
            simp only [List.mem_cons] at hc
            rcases hc with rfl | hc
            · exact ⟨hcp, hreq⟩
            · exact b c hc

theorem receive_loop_calls_outcome (nullR : Int) (clink : VXI11_CLINK) (dev : ReadDevice)
    (len timeout : Nat) :
    ∀ (fuel n cp : Nat) (buffer : List Nat) (i : Nat) (c : ReadCall),
      (vxi11_receive_loop nullR clink dev len timeout fuel n cp buffer).calls[i]? = some c →
        c.resp = dev (n + i) c.parms ∧ c.parms = read_parms_of clink len timeout c.data_val := by
  intro fuel
  induction fuel with
  | zero => intro n cp buffer i c h; simp [vxi11_receive_loop] at h
  | succ fuel ih =>
    intro n cp buffer i c h
    rw [vxi11_receive_loop] at h
    cases hd : dev n (read_parms_of clink len timeout cp) with
    | none =>
      simp only [hd] at h
      cases i with
      | zero => simp at h; subst h; simp [hd]
      | succ j => simp at h
    | some w0 =>
      simp only [hd] at h
      split at h
      · cases i with
        | zero => simp at h; subst h; simp [hd]
        | succ j => simp at h
      · split at h
        · cases i with
          | zero => simp at h; subst h; simp [hd]
          | succ j => simp at h
        · split at h
          · cases i with
            | zero => simp at h; subst h; simp [hd]
            | succ j => simp at h
          · cases i with
            | zero => simp at h; subst h; simp [hd]
            | succ j =>
              simp only [List.getElem?_cons_succ] at h
              have := ih (n + 1) _ _ j c h
              refine ⟨?_, this.2⟩
              rw [this.1]
              congr 1
              omega

theorem receive_loop_end (nullR : Int) (clink : VXI11_CLINK) (dev : ReadDevice)
    (len timeout : Nat) :
    ∀ (fuel n cp : Nat) (buffer : List Nat),
      ((vxi11_receive_loop nullR clink dev len timeout fuel n cp buffer).calls = [] →
        (vxi11_receive_loop nullR clink dev len timeout fuel n cp buffer).ret = none ∧
        (vxi11_receive_loop nullR clink dev len timeout fuel n cp buffer).curr_pos = cp) ∧
      ∀ i c, (vxi11_receive_loop nullR clink dev len timeout fuel n cp buffer).calls[i]? = some c →
        (c.resp = none →
          i + 1 = (vxi11_receive_loop nullR clink dev len timeout fuel n cp buffer).calls.length ∧
          (vxi11_receive_loop nullR clink dev len timeout fuel n cp buffer).ret
            = some (-nullR)) ∧
        (∀ w, c.resp = some w → w.error ≠ 0 →
          i + 1 = (vxi11_receive_loop nullR clink dev len timeout fuel n cp buffer).calls.length ∧
          (vxi11_receive_loop nullR clink dev len timeout fuel n cp buffer).ret
            = some (-w.error)) ∧
        (∀ w, c.resp = some w → w.error = 0 → terminated w = true →
          i + 1 = (vxi11_receive_loop nullR clink dev len timeout fuel n cp buffer).calls.length ∧
          (vxi11_receive_loop nullR clink dev len timeout fuel n cp buffer).ret
            = some (toInt64
                (vxi11_receive_loop nullR clink dev len timeout fuel n cp buffer).curr_pos)) ∧
        (∀ w, c.resp = some w → w.error = 0 → terminated w = false →
          i + 1 = (vxi11_receive_loop nullR clink dev len timeout fuel n cp buffer).calls.length →
          ((vxi11_receive_loop nullR clink dev len timeout fuel n cp buffer).curr_pos = len ∧
            (vxi11_receive_loop nullR clink dev len timeout fuel n cp buffer).ret
              = some (-100)) ∨
          ((vxi11_receive_loop nullR clink dev len timeout fuel n cp buffer).curr_pos ≠ len ∧
            (vxi11_receive_loop nullR clink dev len timeout fuel n cp buffer).ret = none)) := by
  intro fuel
  induction fuel with
  | zero => intro n cp buffer; simp [vxi11_receive_loop]
  | succ fuel ih =>
    intro n cp buffer
    rw [vxi11_receive_loop]
    cases hd : dev n (read_parms_of clink len timeout cp) with
    | none =>
      refine ⟨by simp, ?_⟩
      intro i c h
      cases i with
      | zero => simp at h; subst h; simp
      | succ j => simp at h
    | some w0 =>
      simp only []
      split
      · rename_i he
        refine ⟨by simp, ?_⟩
        intro i c h
        cases i with
        | zero =>
          simp at h; subst h
          simp only [ne_eq, Decidable.not_not] at he
          simp [he]
        | succ j => simp at h
      · rename_i he
        simp only [ne_eq, Decidable.not_not] at he
        split
        · rename_i ht
          refine ⟨by simp, ?_⟩
          intro i c h
          cases i with
          | zero => simp at h; subst h; simp [he, ht]
          | succ j => simp at h
        · rename_i ht
          split
          · rename_i hfull
            refine ⟨by simp, ?_⟩
            intro i c h
            cases i with
            | zero => simp at h; subst h; simp [he, ht, hfull]
            | succ j => simp at h
          · rename_i hfull
            obtain ⟨a, b⟩ := ih (n + 1) (advance len cp w0.data.length)
              (store_at buffer cp w0.data)
            refine ⟨by simp, ?_⟩
            intro i c h
            cases i with
            | zero =>
              simp at h; subst h
              simp only [List.length_cons]
              refine ⟨by simp, ?_, ?_, ?_⟩
              · intro w hw hne
                simp at hw; subst hw
                exact absurd he hne
              · intro w hw _ htw
                simp at hw; subst hw
                simp [htw] at ht
              · intro w hw _ _ hlast
                have hnil : (vxi11_receive_loop nullR clink dev len timeout fuel (n + 1)
                    (advance len cp w0.data.length) (store_at buffer cp w0.data)).calls = [] := by
                  apply List.eq_nil_of_length_eq_zero
                  omega
                obtain ⟨h1, h2⟩ := a hnil
                right
                rw [h2]
                exact ⟨hfull, h1⟩
            | succ j =>
              simp only [List.getElem?_cons_succ] at h
              obtain ⟨b1, b2, b3, b4⟩ := b j c h
              simp only [List.length_cons]
              refine ⟨?_, ?_, ?_, ?_⟩
              · intro hc
                have := b1 hc
                exact ⟨by omega, this.2⟩
              · intro w hw hne
                have := b2 w hw hne
                exact ⟨by omega, this.2⟩
              · intro w hw he2 htw
                have := b3 w hw he2 htw
                exact ⟨by omega, this.2⟩
              · intro w hw he2 htw hl
                exact b4 w hw he2 htw (by omega)

theorem receive_loop_runs_on (nullR : Int) (clink : VXI11_CLINK) (dev : ReadDevice)
    (len timeout : Nat) :
    ∀ (fuel n cp : Nat) (buffer : List Nat),
      (vxi11_receive_loop nullR clink dev len timeout fuel n cp buffer).ret = none →
      (vxi11_receive_loop nullR clink dev len timeout fuel n cp buffer).calls.length = fuel := by
  intro fuel
  induction fuel with
  | zero => intro n cp buffer _; rfl
  | succ fuel ih =>
    intro n cp buffer
    rw [vxi11_receive_loop]
    cases dev n (read_parms_of clink len timeout cp) with
    | none => simp
    | some w =>
      simp only []
      split
      · simp
      · split
        · simp
        · split
          · simp
          · intro h
            simp only [List.length_cons]
            rw [ih _ _ _ h]

theorem toInt64_of_lt (x : Nat) (h : x < 9223372036854775808) : toInt64 (x : Int) = x := by
  unfold toInt64; omega

theorem toInt64_nonneg_le (x len : Nat) (hx : x ≤ len) (hlen : len < 18446744073709551616)
    (h : 0 ≤ toInt64 (x : Int)) : toInt64 (x : Int) ≤ len := by
  unfold toInt64 at *; omega

/-! ## Chunked reader: a reply sequence that ends with END or TERMCHAR -/

theorem store_at_take (mem : List Nat) (off : Nat) (src : List Nat) (h : off ≤ mem.length) :
    (store_at mem off src).take (off + src.length) = mem.take off ++ src := by
  unfold store_at
  have hl : (mem.take off ++ src).length = off + src.length := by
    simp [List.length_take, Nat.min_eq_left h]
  exact List.take_left' hl

theorem store_at_length_ge (mem : List Nat) (off : Nat) (src : List Nat) (h : off ≤ mem.length) :
    off + src.length ≤ (store_at mem off src).length := by
  unfold store_at
  simp [List.length_take, Nat.min_eq_left h]

theorem data_len_sum_zero (rs : List Device_ReadResp) : data_len_sum rs 0 = 0 := by
  simp [data_len_sum]

theorem data_len_sum_cons (w : Device_ReadResp) (rs : List Device_ReadResp) (i : Nat) :
    data_len_sum (w :: rs) (i + 1) = w.data.length + data_len_sum rs i := by
  simp [data_len_sum]

theorem advance_fits (len cp d : Nat) (h : cp + d ≤ len) (hlen : len < 18446744073709551616) :
    advance len cp d = cp + d := by
  have : u64 ((cp : Int) + d) = cp + d := by unfold u64; omega
  unfold advance
  rw [this, if_pos h]

theorem receive_loop_replies (nullR : Int) (clink : VXI11_CLINK) (dev : ReadDevice)
    (len timeout : Nat) (hlen : len < 9223372036854775808) :
    ∀ (rs : List Device_ReadResp) (fuel n cp : Nat) (buffer : List Nat),
      rs ≠ [] → rs.length ≤ fuel → cp ≤ buffer.length →
      (∀ i w p, rs[i]? = some w → dev (n + i) p = some w) →
      (∀ w ∈ rs, w.error = 0) →
      (∀ i w, rs[i]? = some w → (terminated w = true ↔ i + 1 = rs.length)) →
      (∀ i, i < rs.length → cp + data_len_sum rs (i + 1) ≤ len) →
      (∀ i, i + 1 < rs.length → cp + data_len_sum rs (i + 1) ≠ len) →
      (vxi11_receive_loop nullR clink dev len timeout fuel n cp buffer).ret
        = some ((cp + data_len_sum rs rs.length : Nat) : Int) ∧
      (vxi11_receive_loop nullR clink dev len timeout fuel n cp buffer).curr_pos
        = cp + data_len_sum rs rs.length ∧
      (vxi11_receive_loop nullR clink dev len timeout fuel n cp buffer).calls.length
        = rs.length ∧
      (∀ i c, (vxi11_receive_loop nullR clink dev len timeout fuel n cp buffer).calls[i]? = some c →
        c.data_val = cp + data_len_sum rs i ∧ c.resp = rs[i]?) ∧
      (vxi11_receive_loop nullR clink dev len timeout fuel n cp buffer).buffer.take
        (cp + data_len_sum rs rs.length) = buffer.take cp ++ reply_bytes rs := by
  intro rs
  induction rs with
  | nil => intro fuel n cp buffer h; exact absurd rfl h
  | cons w rest ih =>
    intro fuel n cp buffer _ hfuel hbuf hdev herr hterm hfit hnotfull
    obtain ⟨fuel, rfl⟩ : ∃ f, fuel = f + 1 := ⟨fuel - 1, by simp at hfuel; omega⟩
    have hd : dev n (read_parms_of clink len timeout cp) = some w := by
      have := hdev 0 w (read_parms_of clink len timeout cp) (by simp)
      simpa using this
    have he : w.error = 0 := herr w (by simp)
    have hfit0 : cp + w.data.length ≤ len := by
      have := hfit 0 (by simp)
      rw [data_len_sum_cons, data_len_sum_zero] at this
      simpa using this
    have hadv : advance len cp w.data.length = cp + w.data.length :=
      advance_fits len cp _ hfit0 (by omega)
    rw [vxi11_receive_loop]
    simp only [hd, he, ne_eq, not_true, if_false, hadv]
    cases rest with
    | nil =>
      have ht : terminated w = true := (hterm 0 w (by simp)).mpr (by simp)
      have hsum : data_len_sum [w] 1 = w.data.length := by
        rw [data_len_sum_cons, data_len_sum_zero, Nat.add_zero]
      simp only [ht, if_true, List.length_singleton, hsum]
      refine ⟨?_, trivial, trivial, ?_, ?_⟩
      · rw [toInt64_of_lt _ (by omega)]
      · intro i c h
        cases i with
        | zero => simp at h; subst h; simp [data_len_sum_zero]
        | succ j => simp at h
      · rw [store_at_take _ _ _ hbuf]
        simp [reply_bytes]
    | cons w2 rest2 =>
      have ht : terminated w = false := by
        cases h : terminated w with
        | false => rfl
        | true =>
          have := (hterm 0 w (by simp)).mp h
          simp at this
      have hnf : cp + w.data.length ≠ len := by
        have := hnotfull 0 (by simp)
        rw [data_len_sum_cons, data_len_sum_zero] at this
        simpa using this
      simp only [ht, hnf, if_false, Bool.false_eq_true]
      obtain ⟨a1, a2, a3, a4, a5⟩ := ih fuel (n + 1) (cp + w.data.length)
        (store_at buffer cp w.data) (by simp) (by simp at hfuel ⊢; omega)
        (store_at_length_ge _ _ _ hbuf)
        (by
          intro i w' p h
          have := hdev (i + 1) w' p (by simpa using h)
          rw [← this]
          congr 1
          omega)
        (by intro w' hw'; exact herr w' (List.mem_cons_of_mem _ hw'))
        (by
          intro i w' h
          have := hterm (i + 1) w' (by simpa using h)
          simp only [List.length_cons] at this ⊢
          rw [this]
          omega)
        (by
          intro i hi
          have := hfit (i + 1) (by simp at hi ⊢; omega)
          rw [data_len_sum_cons] at this
          omega)
        (by
          intro i hi
          have := hnotfull (i + 1) (by simp at hi ⊢; omega)
          rw [data_len_sum_cons] at this
          omega)
      have hsum : data_len_sum (w :: w2 :: rest2) (w :: w2 :: rest2).length
          = w.data.length + data_len_sum (w2 :: rest2) (w2 :: rest2).length := by
        rw [List.length_cons, data_len_sum_cons]
      rw [hsum]
      refine ⟨?_, ?_, ?_, ?_, ?_⟩
      · rw [a1]; congr 2; omega
      · rw [a2]; omega
      · simp only [List.length_cons] at a3 ⊢
        omega
      · intro i c h
        cases i with
        | zero => simp at h; subst h; simp [data_len_sum_zero]
        | succ j =>
          simp only [List.getElem?_cons_succ] at h
          obtain ⟨b1, b2⟩ := a4 j c h
          rw [data_len_sum_cons]
          exact ⟨by omega, by simpa using b2⟩
      · have : cp + (w.data.length + data_len_sum (w2 :: rest2) (w2 :: rest2).length)
            = cp + w.data.length + data_len_sum (w2 :: rest2) (w2 :: rest2).length := by omega
        rw [this, a5, store_at_take _ _ _ hbuf]
        simp [reply_bytes]

/-- C5: let `rs` be a non-empty reply sequence in which every reply has error code 0,
exactly the last one carries the END or TERMCHAR flag, every reply fits the room that is
left (the data lengths up to and including any reply add up to at most `len`, so none
exceeds the requested `len - curr_pos`) and the buffer is not exactly full before the
last one.  Then `vxi11_receive_timeout` issues exactly `rs.length` device-read calls,
returns the sum of the data lengths, issues the `i`-th call at the offset reached by the
earlier replies with request size `len` minus that offset, and leaves the replies' bytes
one after the other at the start of the buffer. -/
theorem vxi11_receive_timeout_accumulates (nullR : Int) (clink : VXI11_CLINK)
    (dev : ReadDevice) (buffer : List Nat) (len timeout fuel : Nat)
    (rs : List Device_ReadResp) (hlen : len < 9223372036854775808)
    (hne : rs ≠ []) (hfuel : rs.length ≤ fuel)
    (hdev : ∀ i w p, rs[i]? = some w → dev i p = some w)
    (herr : ∀ w ∈ rs, w.error = 0)
    (hterm : ∀ i w, rs[i]? = some w → (terminated w = true ↔ i + 1 = rs.length))
    (hfit : ∀ i, i < rs.length → data_len_sum rs (i + 1) ≤ len)
    (hnotfull : ∀ i, i + 1 < rs.length → data_len_sum rs (i + 1) ≠ len) :
    (vxi11_receive_timeout nullR clink dev buffer len timeout fuel).calls.length = rs.length ∧
    (vxi11_receive_timeout nullR clink dev buffer len timeout fuel).ret
      = some ((data_len_sum rs rs.length : Nat) : Int) ∧
    (∀ (i : Nat) (c : ReadCall),
      (vxi11_receive_timeout nullR clink dev buffer len timeout fuel).calls[i]? = some c →
        c.data_val = data_len_sum rs i ∧
        (c.parms.requestSize : Int) = (len : Int) - data_len_sum rs i ∧
        c.resp = rs[i]?) ∧
    (vxi11_receive_timeout nullR clink dev buffer len timeout fuel).buffer.take
      (data_len_sum rs rs.length) = reply_bytes rs := by
  unfold vxi11_receive_timeout
  obtain ⟨a1, -, a3, a4, a5⟩ := receive_loop_replies nullR clink dev len timeout hlen rs fuel 0 0
    buffer hne hfuel (Nat.zero_le _) (by intro i w p h; simpa using hdev i w p h) herr hterm
    (by intro i hi; simpa using hfit i hi) (by intro i hi; simpa using hnotfull i hi)
  obtain ⟨-, hinv⟩ := receive_loop_invariant nullR clink dev len timeout (by omega) fuel 0 0
    buffer (Nat.zero_le _)
  refine ⟨a3, by simpa using a1, ?_, by simpa using a5⟩
  intro i c h
  obtain ⟨b1, b2⟩ := a4 i c h
  have hmem : c ∈ (vxi11_receive_loop nullR clink dev len timeout fuel 0 0 buffer).calls :=
    List.getElem?_mem h
  have := hinv c hmem
  refine ⟨by simpa using b1, ?_, b2⟩
  have hb : c.data_val = data_len_sum rs i := by simpa using b1
  omega

/-- Witness for C5: two replies of 2 and 1 bytes, the second flagged END, into a
buffer of 5 bytes. -/
theorem vxi11_receive_timeout_accumulates_witness :
    (vxi11_receive_timeout 50 ⟨⟨0, 0⟩⟩ fill_then_end [0, 0, 0, 0, 0] 5 2000 2).calls.length = 2 ∧
    (vxi11_receive_timeout 50 ⟨⟨0, 0⟩⟩ fill_then_end [0, 0, 0, 0, 0] 5 2000 2).ret = some 3 ∧
    (vxi11_receive_timeout 50 ⟨⟨0, 0⟩⟩ fill_then_end [0, 0, 0, 0, 0] 5 2000 2).buffer.take 3
      = [65, 66, 67] := by
  have hdev : ∀ i w p, [(⟨0, 0, [65, 66]⟩ : Device_ReadResp), ⟨0, 4, [67]⟩][i]? = some w →
      fill_then_end i p = some w := by
    intro i w p h
    match i with
    | 0 => simpa [fill_then_end] using h
    | 1 => simpa [fill_then_end] using h
    | j + 2 => simp at h
  have h := vxi11_receive_timeout_accumulates 50 ⟨⟨0, 0⟩⟩ fill_then_end [0, 0, 0, 0, 0] 5 2000 2
    [⟨0, 0, [65, 66]⟩, ⟨0, 4, [67]⟩] (by decide) (by decide) (by decide) hdev (by decide)
    (by
      intro i w h
      match i with
      | 0 => simp at h; subst h; decide
      | 1 => simp at h; subst h; decide
      | j + 2 => simp at h)
    (by
      intro i hi
      match i with
      | 0 => decide
      | 1 => decide
      | j + 2 => simp at hi)
    (by
      intro i hi
      match i with
      | 0 => decide
      | j + 1 => exact absurd hi (by simp))
  exact ⟨h.1, h.2.1, h.2.2.2⟩

/-- C6 (as amended): `vxi11_receive_timeout` returns -100 exactly when its last call is
(a) a successful reply with neither the END nor the TERMCHAR flag after which `curr_pos`
equals `len`, or (b) a reply reporting device error code 100, or (c) a call that did not
complete while `VXI11_NULL_READ_RESP` is 100; and a reply that carries END or TERMCHAR
and leaves `curr_pos` equal to `len` makes the call return `len`. -/
theorem vxi11_receive_timeout_buffer_too_small (nullR : Int) (clink : VXI11_CLINK)
    (dev : ReadDevice) (buffer : List Nat) (len timeout fuel : Nat)
    (hlen : len < 9223372036854775808) :
    ((vxi11_receive_timeout nullR clink dev buffer len timeout fuel).ret = some (-100) ↔
      ∃ (i : Nat) (c : ReadCall),
        (vxi11_receive_timeout nullR clink dev buffer len timeout fuel).calls[i]? = some c ∧
        i + 1 = (vxi11_receive_timeout nullR clink dev buffer len timeout fuel).calls.length ∧
        ((∃ w, c.resp = some w ∧ w.error = 0 ∧ terminated w = false ∧
            (vxi11_receive_timeout nullR clink dev buffer len timeout fuel).curr_pos = len) ∨
         (∃ w, c.resp = some w ∧ w.error = 100) ∨
         (c.resp = none ∧ nullR = 100))) ∧
    (∀ (i : Nat) (c : ReadCall) (w : Device_ReadResp),
      (vxi11_receive_timeout nullR clink dev buffer len timeout fuel).calls[i]? = some c →
      c.resp = some w → w.error = 0 → terminated w = true →
      (vxi11_receive_timeout nullR clink dev buffer len timeout fuel).curr_pos = len →
        (vxi11_receive_timeout nullR clink dev buffer len timeout fuel).ret = some (len : Int)) := by
  unfold vxi11_receive_timeout
  obtain ⟨hcur, -⟩ := receive_loop_invariant nullR clink dev len timeout (by omega) fuel 0 0
    buffer (Nat.zero_le _)
  obtain ⟨hnil, hend⟩ := receive_loop_end nullR clink dev len timeout fuel 0 0 buffer
  generalize vxi11_receive_loop nullR clink dev len timeout fuel 0 0 buffer = r at *
  refine ⟨⟨?_, ?_⟩, ?_⟩
  · intro hv
    have hne : r.calls ≠ [] := by
      intro h
      rw [(hnil h).1] at hv
      exact absurd hv (by simp)
    have hpos : 0 < r.calls.length := List.length_pos.mpr hne
    have hget : r.calls[r.calls.length - 1]? = some (r.calls[r.calls.length - 1]) :=
      List.getElem?_eq_getElem (by omega)
    obtain ⟨e1, e2, e3, e4⟩ := hend _ _ hget
    refine ⟨_, _, hget, by omega, ?_⟩
    cases hresp : (r.calls[r.calls.length - 1]).resp with
    | none =>
      have := (e1 hresp).2
      rw [this] at hv
      simp at hv
      exact Or.inr (Or.inr ⟨rfl, hv⟩)
    | some w =>
      by_cases he : w.error = 0
      · cases ht : terminated w with
        | true =>
          have := (e3 w hresp he ht).2
          rw [this, toInt64_of_lt _ (by omega)] at hv
          simp at hv
        | false =>
          rcases e4 w hresp he ht (by omega) with h | h
          · exact Or.inl ⟨w, rfl, he, ht, h.1⟩
          · rw [h.2] at hv
            simp at hv
      · have := (e2 w hresp he).2
        rw [this] at hv
        simp at hv
        exact Or.inr (Or.inl ⟨w, rfl, hv⟩)
  · rintro ⟨i, c, hget, hlast, hcase⟩
    obtain ⟨e1, e2, e3, e4⟩ := hend _ _ hget
    rcases hcase with ⟨w, hw, he, ht, hc⟩ | ⟨w, hw, he⟩ | ⟨hc, hn⟩
    · rcases e4 w hw he ht hlast with h | h
      · exact h.2
      · exact absurd hc h.1
    · have := (e2 w hw (by omega)).2
      rw [this, he]
    · have := (e1 hc).2
      rw [this, hn]
  · intro i c w hget hw he ht hc
    have := ((hend _ _ hget).2.2.1 w hw he ht).2
    rw [this, hc, toInt64_of_lt _ hlen]

/-- Witness for C6: the second reply fills the 3-byte buffer and carries END; the
reader returns 3. -/
theorem vxi11_receive_timeout_buffer_too_small_witness :
    (vxi11_receive_timeout 50 ⟨⟨0, 0⟩⟩ fill_then_end [0, 0, 0] 3 2000 2).ret = some 3 := by
  have h := (vxi11_receive_timeout_buffer_too_small 50 ⟨⟨0, 0⟩⟩ fill_then_end [0, 0, 0] 3
    2000 2 (by decide)).2 1 ⟨2, ⟨0, 1, 2000, 2000, 0, 0⟩, some ⟨0, 4, [67]⟩⟩ ⟨0, 4, [67]⟩
    (by decide) rfl rfl (by decide) (by decide)
  simpa using h

/-- Counterexample to C6 as stated: the remote reports error code 100 on the first
device-read; the reader returns -100 although no reply was successful and `curr_pos`
is 0, not the buffer length 4. -/
theorem vxi11_receive_timeout_error_code_100 :
    (vxi11_receive_timeout 50 ⟨⟨0, 0⟩⟩ (fun _ _ => some ⟨100, 0, []⟩) [0, 0, 0, 0] 4 2000
      1).ret = some (-100) ∧
    (vxi11_receive_timeout 50 ⟨⟨0, 0⟩⟩ (fun _ _ => some ⟨100, 0, []⟩) [0, 0, 0, 0] 4 2000
      1).curr_pos = 0 ∧
    (vxi11_receive_timeout 50 ⟨⟨0, 0⟩⟩ (fun _ _ => some ⟨100, 0, []⟩) [0, 0, 0, 0] 4 2000
      1).calls.map (fun c => c.resp) = [some ⟨100, 0, []⟩] := by
  decide

/-- C7: `vxi11_receive_timeout` surfaces a read failure at the first failing call.  Each
recorded outcome is the remote's answer to that call; a device-read call whose RPC does
not complete is the last call issued and the result is `-VXI11_NULL_READ_RESP`; a call
answered with a nonzero error code `e` is the last call issued and the result is `-e`,
whatever `curr_pos` (the offset `data_val` of the call) had been reached; and a run that
has not returned has used its whole step budget on calls. -/
theorem vxi11_receive_timeout_first_failure (nullR : Int) (clink : VXI11_CLINK)
    (dev : ReadDevice) (buffer : List Nat) (len timeout fuel : Nat) :
    (∀ i c, (vxi11_receive_timeout nullR clink dev buffer len timeout fuel).calls[i]? = some c →
      c.resp = dev i c.parms) ∧
    (∀ i c, (vxi11_receive_timeout nullR clink dev buffer len timeout fuel).calls[i]? = some c →
      c.resp = none →
        i + 1 = (vxi11_receive_timeout nullR clink dev buffer len timeout fuel).calls.length ∧
        (vxi11_receive_timeout nullR clink dev buffer len timeout fuel).ret = some (-nullR)) ∧
    (∀ i c w,
      (vxi11_receive_timeout nullR clink dev buffer len timeout fuel).calls[i]? = some c →
      c.resp = some w → w.error ≠ 0 →
        i + 1 = (vxi11_receive_timeout nullR clink dev buffer len timeout fuel).calls.length ∧
        (vxi11_receive_timeout nullR clink dev buffer len timeout fuel).ret
          = some (-w.error)) ∧
    ((vxi11_receive_timeout nullR clink dev buffer len timeout fuel).ret = none →
      (vxi11_receive_timeout nullR clink dev buffer len timeout fuel).calls.length = fuel) := by
  unfold vxi11_receive_timeout
  refine ⟨?_, ?_, ?_, receive_loop_runs_on nullR clink dev len timeout fuel 0 0 buffer⟩
  · intro i c h
    have := (receive_loop_calls_outcome nullR clink dev len timeout fuel 0 0 buffer i c h).1
    simpa using this
  · intro i c h hc
    exact ((receive_loop_end nullR clink dev len timeout fuel 0 0 buffer).2 i c h).1 hc
  · intro i c w h hc hw
    exact ((receive_loop_end nullR clink dev len timeout fuel 0 0 buffer).2 i c h).2.1 w hc hw

/-- Witness for C7: three bytes are accumulated, then the second device-read reports
error code 15 and the reader returns -15 after two calls. -/
theorem vxi11_receive_timeout_first_failure_witness :
    (vxi11_receive_timeout 50 ⟨⟨0, 0⟩⟩ timeout_after_first [0, 0, 0, 0, 0] 5 2000 3).calls.length
      = 2 ∧
    (vxi11_receive_timeout 50 ⟨⟨0, 0⟩⟩ timeout_after_first [0, 0, 0, 0, 0] 5 2000 3).ret
      = some (-15) := by
  have h := (vxi11_receive_timeout_first_failure 50 ⟨⟨0, 0⟩⟩ timeout_after_first
    [0, 0, 0, 0, 0] 5 2000 3).2.2.1 1
    ⟨3, ⟨0, 2, 2000, 2000, 0, 0⟩, some ⟨15, 0, []⟩⟩ ⟨15, 0, []⟩ (by decide) rfl (by decide)
  exact ⟨h.1.symm, h.2⟩

/-- C8 (as amended): for every remote, also one whose replies are longer than requested,
before every device-read call `curr_pos <= len` and the request size is exactly
`len - curr_pos`, and the final `curr_pos` is within `len`; a non-negative return value
is within `len` when the remote reports no negative error code and
`VXI11_NULL_READ_RESP` is not negative. -/
theorem vxi11_receive_timeout_within_capacity (nullR : Int) (clink : VXI11_CLINK)
    (dev : ReadDevice) (buffer : List Nat) (len timeout fuel : Nat)
    (hlen : len < 18446744073709551616) :
    (∀ c ∈ (vxi11_receive_timeout nullR clink dev buffer len timeout fuel).calls,
      c.data_val ≤ len ∧ (c.parms.requestSize : Int) = (len : Int) - c.data_val) ∧
    (vxi11_receive_timeout nullR clink dev buffer len timeout fuel).curr_pos ≤ len ∧
    (0 ≤ nullR → (∀ n p w, dev n p = some w → 0 ≤ w.error) →
      ∀ v, (vxi11_receive_timeout nullR clink dev buffer len timeout fuel).ret = some v →
        0 ≤ v → v ≤ len) := by
  unfold vxi11_receive_timeout
  obtain ⟨hcur, hcalls⟩ :=
    receive_loop_invariant nullR clink dev len timeout hlen fuel 0 0 buffer (Nat.zero_le _)
  obtain ⟨hnil, hend⟩ := receive_loop_end nullR clink dev len timeout fuel 0 0 buffer
  refine ⟨?_, hcur, ?_⟩
  · intro c hc
    have := hcalls c hc
    exact ⟨this.1, by omega⟩
  · intro hN hE v hv hv0
    generalize hr : vxi11_receive_loop nullR clink dev len timeout fuel 0 0 buffer = r at *
    have hne : r.calls ≠ [] := by
      intro h
      rw [(hnil h).1] at hv
      exact absurd hv (by simp)
    have hpos : 0 < r.calls.length := List.length_pos.mpr hne
    have hget : r.calls[r.calls.length - 1]? = some (r.calls[r.calls.length - 1]) :=
      List.getElem?_eq_getElem (by omega)
    obtain ⟨e1, e2, e3, e4⟩ := hend _ _ hget
    have hout := (receive_loop_calls_outcome nullR clink dev len timeout fuel 0 0 buffer
      (r.calls.length - 1) (r.calls[r.calls.length - 1]) (by rw [hr]; exact hget)).1
    cases hresp : (r.calls[r.calls.length - 1]).resp with
    | none =>
      have := (e1 hresp).2
      rw [this] at hv
      simp at hv
      omega
    | some w =>
      have hw0 := hE _ _ w (by rw [← hout, hresp])
      by_cases he : w.error = 0
      · cases ht : terminated w with
        | true =>
          have := (e3 w hresp he ht).2
          rw [this] at hv
          simp at hv
          subst hv
          exact toInt64_nonneg_le _ _ hcur hlen hv0
        | false =>
          rcases e4 w hresp he ht (by omega) with h | h
          · rw [h.2] at hv
            simp at hv
            omega
          · rw [h.2] at hv
            simp at hv
      · have := (e2 w hresp he).2
        rw [this] at hv
        simp at hv
        omega

/-- Witness for C8: a reply that is longer than the room left is not counted, and the
reader returns 2 for a buffer of 3 bytes. -/
theorem vxi11_receive_timeout_within_capacity_witness :
    (vxi11_receive_timeout 50 ⟨⟨0, 0⟩⟩ overlong_then_end [0, 0, 0] 3 2000 5).curr_pos ≤ 3 ∧
    (vxi11_receive_timeout 50 ⟨⟨0, 0⟩⟩ overlong_then_end [0, 0, 0] 3 2000 5).ret = some 2 ∧
    (2 : Int) ≤ ((3 : Nat) : Int) := by
  have hE : ∀ n p w, overlong_then_end n p = some w → 0 ≤ w.error := by
    intro n p w h
    unfold overlong_then_end at h
    split at h <;> (simp at h; subst h; simp)
  have h := vxi11_receive_timeout_within_capacity 50 ⟨⟨0, 0⟩⟩ overlong_then_end [0, 0, 0] 3
    2000 5 (by decide)
  exact ⟨h.2.1, by decide, h.2.2 (by decide) hE 2 (by decide) (by decide)⟩

/-- Counterexample to C8 as stated: the remote reports error code -7 on the first
device-read; the reader returns 7 for a buffer of 3 bytes. -/
theorem vxi11_receive_timeout_negative_error_code :
    (vxi11_receive_timeout 50 ⟨⟨0, 0⟩⟩ (fun _ _ => some ⟨-7, 0, []⟩) [0, 0, 0] 3 2000 1).ret
      = some 7 ∧ ¬ ((7 : Int) ≤ 3) := by
  decide

/-! ## Block codec -/

theorem digits_value_append_digit (ds : List Nat) (d : Nat) :
    digits_value (ds ++ [d]) = 10 * digits_value ds + (d - 48) := by
  simp [digits_value, List.foldl_append]

theorem digits_value_reverse (L : List Nat) :
    digits_value ((L.reverse).map (fun d => d + 48)) = Nat.ofDigits 10 L := by
  induction L with
  | nil => simp [digits_value]
  | cons d L ih =>
    rw [List.reverse_cons, List.map_append, List.map_singleton, digits_value_append_digit, ih,
      Nat.ofDigits_cons]
    omega

theorem digits_value_zeros (k : Nat) (ds : List Nat) :
    digits_value (List.replicate k 48 ++ ds) = digits_value ds := by
  induction k with
  | zero => simp
  | succ k ih =>
    rw [List.replicate_succ, List.cons_append]
    unfold digits_value at ih ⊢
    rw [List.foldl_cons]
    exact ih

theorem digits_length_le_eight (n : Nat) (h : n < 100000000) :
    (Nat.digits 10 n).length ≤ 8 := by
  by_cases h0 : n = 0
  · subst h0; simp
  · have h1 := Nat.base_pow_length_digits_le 10 n (by decide) h0
    have h2 : 10 ^ (Nat.digits 10 n).length < 10 ^ 9 := by omega
    have := (Nat.pow_lt_pow_iff_right (by decide : 1 < 10)).mp h2
    omega

theorem fmt_lu_length (n : Nat) (h : n < 100000000) :
    1 ≤ (fmt_lu n).length ∧ (fmt_lu n).length ≤ 8 := by
  unfold fmt_lu
  split
  · simp
  · rename_i h0
    simp only [List.length_map, List.length_reverse]
    refine ⟨?_, digits_length_le_eight n h⟩
    have : Nat.digits 10 n ≠ [] := Nat.digits_ne_nil_iff_ne_zero.mpr h0
    exact List.length_pos.mpr this

theorem fmt_lu_isdigit (n : Nat) : ∀ d ∈ fmt_lu n, 48 ≤ d ∧ d ≤ 57 := by
  unfold fmt_lu
  split
  · intro d hd; simp at hd; omega
  · intro d hd
    simp only [List.mem_map, List.mem_reverse] at hd
    obtain ⟨e, he, rfl⟩ := hd
    have := Nat.digits_lt_base (by decide : 1 < 10) he
    omega

theorem fmt_lu_value (n : Nat) : digits_value (fmt_lu n) = n := by
  unfold fmt_lu
  split
  · rename_i h0; subst h0; rfl
  · rw [digits_value_reverse, Nat.ofDigits_digits]

theorem fmt_08lu_length (n : Nat) (h : n < 100000000) : (fmt_08lu n).length = 8 := by
  have := fmt_lu_length n h
  unfold fmt_08lu
  simp only [List.length_append, List.length_replicate]
  omega

theorem fmt_08lu_isdigit (n : Nat) : ∀ d ∈ fmt_08lu n, 48 ≤ d ∧ d ≤ 57 := by
  intro d hd
  unfold fmt_08lu at hd
  rw [List.mem_append] at hd
  rcases hd with hd | hd
  · have := (List.mem_replicate.mp hd).2
    omega
  · exact fmt_lu_isdigit n d hd

theorem fmt_08lu_value (n : Nat) : digits_value (fmt_08lu n) = n := by
  unfold fmt_08lu
  rw [digits_value_zeros, fmt_lu_value]

theorem send_loop_send_cmd (nullW : Int) (clink : VXI11_CLINK) (dev : WriteDevice)
    (sc : List Nat) (len : Nat) (fuel n bl : Nat) :
    (vxi11_send_loop nullW clink dev sc len fuel n bl).send_cmd = sc := by
  cases fuel with
  | zero => rfl
  | succ fuel =>
    rw [vxi11_send_loop]
    cases dev n (write_parms_of clink len bl) with
    | none => rfl
    | some w =>
      simp only []
      split
      · rfl
      · split <;> rfl

theorem header_length (cmd : List Nat) (len : Nat) (h : len < 100000000) :
    (c_str cmd ++ [35, 56] ++ fmt_08lu len).length = strlen cmd + 10 := by
  simp only [List.length_append, fmt_08lu_length len h, strlen]
  rfl

theorem out_buffer_take (cmd buffer : List Nat) (len : Nat) (h : len < 100000000)
    (hbuf : buffer.length = len) :
    (out_buffer_of cmd buffer len).take (strlen cmd + 10 + len)
      = c_str cmd ++ [35, 56] ++ fmt_08lu len ++ buffer := by
  have hH := header_length cmd len h
  have htake : buffer.take len = buffer := by rw [← hbuf, List.take_length]
  unfold out_buffer_of sprintf_header store_at
  rw [htake, List.take_left' hH]
  apply List.take_left'
  simp only [List.length_append] at hH ⊢
  omega

theorem takeWhile_isdigit_self (ds : List Nat) (h : ∀ d ∈ ds, 48 ≤ d ∧ d ≤ 57) :
    ds.takeWhile isdigit = ds := by
  induction ds with
  | nil => rfl
  | cons d ds ih =>
    have hd := h d (by simp)
    have : isdigit d = true := by simp [isdigit, hd.1, hd.2]
    rw [List.takeWhile_cons, this]
    simp only [if_true]
    rw [ih (fun e he => h e (List.mem_cons_of_mem _ he))]

theorem scan_number_digits (ds rest : List Nat) (hne : ds ≠ [])
    (h : ∀ d ∈ ds, 48 ≤ d ∧ d ≤ 57) :
    scan_number ds.length (ds ++ rest) = some ((digits_value ds : Int), rest) := by
  cases ds with
  | nil => exact absurd rfl hne
  | cons d ds =>
    have hd := h d (by simp)
    have hsp : isspace d = false := by
      simp only [isspace, Bool.or_eq_false_iff, beq_eq_false_iff_ne, ne_eq,
        Bool.and_eq_false_iff, decide_eq_false_iff_not]
      omega
    have hsign : ¬ (d = 43 ∨ d = 45) := by omega
    have htk : ((d :: (ds ++ rest)).take (d :: ds).length).takeWhile isdigit = d :: ds := by
      have : (d :: (ds ++ rest)).take (d :: ds).length = d :: ds := by
        rw [← List.cons_append]
        exact List.take_left' rfl
      rw [this, takeWhile_isdigit_self _ h]
    unfold scan_number
    rw [List.cons_append, List.dropWhile_cons, hsp]
    simp only [Bool.false_eq_true, if_false, hsign, htk, List.isEmpty_cons]
    rw [← List.cons_append, List.drop_left' rfl]

/-- C10: for a payload `buffer` of length `len < 10^8`, the bytes `vxi11_send_data_block`
hands to `vxi11_send` are the characters of `cmd`, then `#8`, then eight ASCII decimal
digits whose value is `len`, then the payload unchanged; their number is
`strlen(cmd) + 10 + len`. -/
theorem vxi11_send_data_block_layout (nullW : Int) (clink : VXI11_CLINK) (dev : WriteDevice)
    (cmd buffer : List Nat) (len fuel : Nat) (hlen : len < 100000000)
    (hbuf : buffer.length = len) :
    (vxi11_send_data_block nullW clink dev cmd buffer len fuel).send_cmd
      = c_str cmd ++ [35, 56] ++ fmt_08lu len ++ buffer ∧
    (fmt_08lu len).length = 8 ∧
    (∀ d ∈ fmt_08lu len, 48 ≤ d ∧ d ≤ 57) ∧
    digits_value (fmt_08lu len) = len ∧
    (vxi11_send_data_block nullW clink dev cmd buffer len fuel).send_cmd.length
      = strlen cmd + 10 + len := by
  have hs : (vxi11_send_data_block nullW clink dev cmd buffer len fuel).send_cmd
      = c_str cmd ++ [35, 56] ++ fmt_08lu len ++ buffer := by
    unfold vxi11_send_data_block vxi11_send
    rw [send_loop_send_cmd, out_buffer_take cmd buffer len hlen hbuf]
  refine ⟨hs, fmt_08lu_length len hlen, fmt_08lu_isdigit len, fmt_08lu_value len, ?_⟩
  rw [hs, List.length_append, header_length cmd len hlen, hbuf]

/-- Witness for C10: the command `DAT ` with the payload 1, 2, 3. -/
theorem vxi11_send_data_block_layout_witness :
    (vxi11_send_data_block 51 ⟨⟨0, 4096⟩⟩ accept_all [68, 65, 84, 32] [1, 2, 3] 3 1).send_cmd
      = [68, 65, 84, 32, 35, 56, 48, 48, 48, 48, 48, 48, 48, 51, 1, 2, 3] := by
  have h := (vxi11_send_data_block_layout 51 ⟨⟨0, 4096⟩⟩ accept_all [68, 65, 84, 32] [1, 2, 3]
    3 1 (by decide) rfl).1
  rw [h]
  simp [c_str, fmt_08lu, fmt_lu]

/-- C9 (as amended): for a payload `buffer` of length `len < 10^8`, decoding what the
encoder produced after its command prefix (the output without its first `strlen(cmd)`
bytes, which is the whole output when `cmd` is empty) returns `len` and copies exactly
the payload bytes. -/
theorem data_block_round_trip (nullW : Int) (clink : VXI11_CLINK) (dev : WriteDevice)
    (cmd buffer : List Nat) (len fuel : Nat) (hlen : len < 100000000)
    (hbuf : buffer.length = len) :
    data_block_decode
      ((vxi11_send_data_block nullW clink dev cmd buffer len fuel).send_cmd.drop (strlen cmd))
      = some { ret := (len : Int), copied := buffer } := by
  have hs : (vxi11_send_data_block nullW clink dev cmd buffer len fuel).send_cmd
      = c_str cmd ++ ([35, 56] ++ fmt_08lu len ++ buffer) := by
    unfold vxi11_send_data_block vxi11_send
    rw [send_loop_send_cmd, out_buffer_take cmd buffer len hlen hbuf]
    simp
  have hF := fmt_08lu_length len hlen
  have hne : fmt_08lu len ≠ [] := by
    intro h
    rw [h] at hF
    simp at hF
  have h1 : scan_number 1 (56 :: (fmt_08lu len ++ buffer))
      = some ((8 : Int), fmt_08lu len ++ buffer) :=
    scan_number_digits [56] (fmt_08lu len ++ buffer) (by simp) (by simp)
  have h2 : scan_number 8 (fmt_08lu len ++ buffer) = some ((len : Int), buffer) := by
    have := scan_number_digits (fmt_08lu len) buffer hne (fmt_08lu_isdigit len)
    rw [hF, fmt_08lu_value] at this
    exact this
  have hu : u64 (len : Int) = len := by unfold u64; omega
  have ht : toInt64 (len : Int) = len := toInt64_of_lt len (by omega)
  have htake : buffer.take len = buffer := by rw [← hbuf, List.take_length]
  have hdc : (c_str cmd ++ ([35, 56] ++ fmt_08lu len ++ buffer)).drop (strlen cmd)
      = [35, 56] ++ fmt_08lu len ++ buffer := List.drop_left' rfl
  rw [hs, hdc]
  simp only [data_block_decode, List.append_assoc, List.cons_append, List.nil_append,
    List.head?_cons, ne_eq, not_true, if_false, List.drop_succ_cons, List.drop_zero, h1]
  have h8 : (8 : Int) > 0 := by decide
  have h8n : (8 : Int).toNat = 8 := rfl
  simp only [h8, if_true, h8n, h2, hu, ht]
  have hd2 : (fmt_08lu len ++ buffer).drop 8 = buffer := List.drop_left' hF
  rw [hd2, htake]

/-- Witness for C9: the command `DAT ` with the payload 1, 2, 3. -/
theorem data_block_round_trip_witness :
    data_block_decode
      ((vxi11_send_data_block 51 ⟨⟨0, 4096⟩⟩ accept_all [68, 65, 84, 32] [1, 2, 3] 3
        1).send_cmd.drop (strlen [68, 65, 84, 32]))
      = some { ret := 3, copied := [1, 2, 3] } :=
  data_block_round_trip 51 ⟨⟨0, 4096⟩⟩ accept_all [68, 65, 84, 32] [1, 2, 3] 3 1 (by decide) rfl

/-- Counterexample to C9 as stated: the encoder output for the command `DAT ` and the
payload 1, 2, 3 begins with `D`, not `#`; the decoder returns -3 and copies nothing. -/
theorem data_block_decode_rejects_command_text :
    data_block_decode
      (vxi11_send_data_block 51 ⟨⟨0, 4096⟩⟩ accept_all [68, 65, 84, 32] [1, 2, 3] 3 1).send_cmd
      = some { ret := -3, copied := [] } := by
  decide

/-! ## Block decoder -/

theorem toInt32_of_range (x : Int) (h1 : -2147483648 ≤ x) (h2 : x < 2147483648) :
    toInt32 x = x := by
  unfold toInt32; omega

theorem data_block_decode_hash_zero (rest : List Nat) :
    data_block_decode (35 :: 48 :: rest) = some { ret := 0, copied := [] } := by
  have h : scan_number 1 (48 :: rest) = some ((0 : Int), rest) :=
    scan_number_digits [48] rest (by simp) (by simp)
  simp [data_block_decode, h]

theorem data_block_decode_not_hash (in_buffer : List Nat) (h : in_buffer.head? ≠ some 35) :
    data_block_decode in_buffer = some { ret := -3, copied := [] } := by
  simp [data_block_decode, h]

/-- C11: when the receive succeeds (with a byte count that fits the `int` it is stored
in) and the reply begins with `#0`, `vxi11_receive_data_block` returns 0 and copies
nothing into the caller's buffer. -/
theorem vxi11_receive_data_block_hash_zero (nullR : Int) (clink : VXI11_CLINK)
    (dev : ReadDevice) (in_buffer : List Nat) (len timeout fuel : Nat) (bytes : Int)
    (rest : List Nat)
    (hret : (vxi11_receive_timeout nullR clink dev in_buffer (u64 (len + 12)) timeout fuel).ret
      = some bytes)
    (h0 : 0 ≤ bytes) (h1 : bytes < 2147483648)
    (hbuf : (vxi11_receive_timeout nullR clink dev in_buffer (u64 (len + 12)) timeout
      fuel).buffer = 35 :: 48 :: rest) :
    vxi11_receive_data_block nullR clink dev in_buffer len timeout fuel
      = some (some { ret := 0, copied := [] }) := by
  have ht : toInt32 bytes = bytes := toInt32_of_range bytes (by omega) h1
  have hn : ¬ bytes < 0 := by omega
  simp only [vxi11_receive_data_block, hret, ht, hn, if_false, hbuf, data_block_decode_hash_zero]

/-- Witness for C11: the instrument answers `#0` with the END flag. -/
theorem vxi11_receive_data_block_hash_zero_witness :
    vxi11_receive_data_block 50 ⟨⟨0, 0⟩⟩ reply_hash_zero (List.replicate 16 0) 4 2000 1
      = some (some { ret := 0, copied := [] }) :=
  vxi11_receive_data_block_hash_zero 50 ⟨⟨0, 0⟩⟩ reply_hash_zero (List.replicate 16 0) 4 2000 1
    2 (List.replicate 14 0) (by decide) (by decide) (by decide) (by decide)

/-- C12: when the receive succeeds (with a byte count that fits the `int` it is stored
in) and the first byte of `in_buffer` is not `#`, `vxi11_receive_data_block` returns -3
and copies nothing into the caller's buffer; when the receive returns a negative value
(one that fits an `int`), that value is returned unchanged and nothing is copied. -/
theorem vxi11_receive_data_block_malformed (nullR : Int) (clink : VXI11_CLINK)
    (dev : ReadDevice) (in_buffer : List Nat) (len timeout fuel : Nat) (bytes : Int)
    (hret : (vxi11_receive_timeout nullR clink dev in_buffer (u64 (len + 12)) timeout fuel).ret
      = some bytes) :
    (0 ≤ bytes → bytes < 2147483648 →
      (vxi11_receive_timeout nullR clink dev in_buffer (u64 (len + 12)) timeout
        fuel).buffer.head? ≠ some 35 →
      vxi11_receive_data_block nullR clink dev in_buffer len timeout fuel
        = some (some { ret := -3, copied := [] })) ∧
    (bytes < 0 → -2147483648 ≤ bytes →
      vxi11_receive_data_block nullR clink dev in_buffer len timeout fuel
        = some (some { ret := bytes, copied := [] })) := by
  refine ⟨?_, ?_⟩
  · intro h0 h1 hbuf
    have ht : toInt32 bytes = bytes := toInt32_of_range bytes (by omega) h1
    have hn : ¬ bytes < 0 := by omega
    simp only [vxi11_receive_data_block, hret, ht, hn, if_false,
      data_block_decode_not_hash _ hbuf]
  · intro h0 h1
    have ht : toInt32 bytes = bytes := toInt32_of_range bytes h1 (by omega)
    simp only [vxi11_receive_data_block, hret, ht, h0, if_true]

/-- Witness for C12: a reply `1.5` is rejected with -3, and a device error code 15 comes
back as -15. -/
theorem vxi11_receive_data_block_malformed_witness :
    vxi11_receive_data_block 50 ⟨⟨0, 0⟩⟩ reply_three_bytes (List.replicate 16 0) 4 2000 1
      = some (some { ret := -3, copied := [] }) ∧
    vxi11_receive_data_block 50 ⟨⟨0, 0⟩⟩ read_timeout (List.replicate 16 0) 4 2000 1
      = some (some { ret := -15, copied := [] }) :=
  ⟨(vxi11_receive_data_block_malformed 50 ⟨⟨0, 0⟩⟩ reply_three_bytes (List.replicate 16 0) 4
      2000 1 3 (by decide)).1 (by decide) (by decide) (by decide),
   (vxi11_receive_data_block_malformed 50 ⟨⟨0, 0⟩⟩ read_timeout (List.replicate 16 0) 4
      2000 1 (-15) (by decide)).2 (by decide) (by decide)⟩

/-! ## Client registry -/

theorem c_str_nonzero (s : List Nat) : ∀ x ∈ c_str s, x ≠ 0 := by
  intro x hx
  have := List.mem_takeWhile_imp hx
  simpa using this

theorem takeWhile_append_zeros (l : List Nat) (k : Nat) (h : ∀ x ∈ l, x ≠ 0) :
    (l ++ List.replicate k 0).takeWhile (fun c => c != 0) = l := by
  induction l with
  | nil =>
    cases k with
    | zero => rfl
    | succ k => simp [List.replicate_succ]
  | cons x l ih =>
    have hx : x ≠ 0 := h x (by simp)
    rw [List.cons_append, List.takeWhile_cons]
    simp only [bne_iff_ne, ne_eq, hx, not_false_eq_true, if_true]
    rw [ih (fun y hy => h y (List.mem_cons_of_mem _ hy))]

theorem c_str_strncpy (s : List Nat) (n : Nat) : c_str (strncpy s n) = (c_str s).take n := by
  unfold strncpy
  rw [List.take_append_eq_append_take, List.take_replicate]
  exact takeWhile_append_zeros _ _
    (fun x hx => c_str_nonzero s x (List.mem_of_mem_take hx))

theorem strncmp_zero_strncpy (s : List Nat) : strncmp_zero s (strncpy s 20) 20 = true := by
  simp [strncmp_zero, c_str_strncpy, List.take_take]

theorem strncmp_zero_of_strcmp_zero (s t : List Nat) (h : strcmp_zero s t = true) :
    strncmp_zero s t 20 = true := by
  simp only [strcmp_zero, beq_iff_eq] at h
  simp [strncmp_zero, h]

theorem find_none_of_forall (p : vxi11_client_t → Bool) (l : List vxi11_client_t)
    (h : ∀ c ∈ l, p c = false) : l.find? p = none := by
  rw [List.find?_eq_none]
  intro c hc
  simp [h c hc]

/-- Close of an address that the lookup of `vxi11_close_device` (`strncmp` over 20
bytes) finds in no node of the registry: the call returns -4, makes no RPC call (neither
destroy-link nor `clnt_destroy`) and leaves the registry as it was.  This is the
situation after one successful open of such an address and one close: the first close
restores the registry, and a second close returns -4 and changes nothing.  An address
that was never opened but agrees with a stored one in its first 20 bytes is found by
that lookup and is not covered. -/
theorem vxi11_close_device_unknown_address (VXI11_CLIENTS : List vxi11_client_t)
    (address : List Nat)
    (hnone : ∀ c ∈ VXI11_CLIENTS, strncmp_zero address c.address 20 = false) :
    (∀ (clink : CLINK) (ok : Bool),
      vxi11_close_device VXI11_CLIENTS clink address ok
        = { ret := -4, clients := VXI11_CLIENTS, calls := [] }) ∧
    (∀ (device : Option (List Nat)) (rpc : OpenAnswers) (h1 : CLINK) (ok1 ok2 : Bool),
      (vxi11_open_device VXI11_CLIENTS address device rpc).ret = 0 →
      (vxi11_open_device VXI11_CLIENTS address device rpc).clink = some h1 →
      (vxi11_close_device (vxi11_open_device VXI11_CLIENTS address device rpc).clients h1
        address ok1).clients = VXI11_CLIENTS ∧
      vxi11_close_device
        (vxi11_close_device (vxi11_open_device VXI11_CLIENTS address device rpc).clients h1
          address ok1).clients h1 address ok2
        = { ret := -4, clients := VXI11_CLIENTS, calls := [] }) := by
  have hclose : ∀ (clink : CLINK) (ok : Bool),
      vxi11_close_device VXI11_CLIENTS clink address ok
        = { ret := -4, clients := VXI11_CLIENTS, calls := [] } := by
    intro clink ok
    unfold vxi11_close_device
    rw [find_none_of_forall _ _ hnone]
  refine ⟨hclose, ?_⟩
  intro device rpc h1 ok1 ok2 hret hclink
  have hfind : VXI11_CLIENTS.find? (fun tail => strcmp_zero address tail.address) = none := by
    apply find_none_of_forall
    intro c hc
    cases h : strcmp_zero address c.address with
    | false => rfl
    | true =>
      have := strncmp_zero_of_strcmp_zero _ _ h
      rw [hnone c hc] at this
      exact absurd this (by simp)
  have hreg : ∃ c, (vxi11_open_device VXI11_CLIENTS address device rpc).clients
      = { address := strncpy address 20, client_address := c, link_count := 1 }
        :: VXI11_CLIENTS := by
    unfold vxi11_open_device at hret ⊢
    simp only [hfind] at hret ⊢
    cases hc : rpc.clnt_create with
    | none => simp [hc] at hret
    | some c =>
      simp only [hc] at hret ⊢
      split at hret
      · simp at hret
      · rename_i hne
        rw [if_neg hne]
        exact ⟨c, rfl⟩
  obtain ⟨c, hc⟩ := hreg
  have hc1 : (vxi11_close_device (vxi11_open_device VXI11_CLIENTS address device rpc).clients
      h1 address ok1).clients = VXI11_CLIENTS := by
    rw [hc]
    unfold vxi11_close_device
    simp [List.find?, strncmp_zero_strncpy, unlink_first]
  rw [hc1]
  exact ⟨rfl, hclose h1 ok2⟩

/-- A close for `10.0.0.2` on a registry that only holds `10.0.0.1` returns -4 and changes
nothing. -/
theorem vxi11_close_device_unknown_address_witness :
    vxi11_close_device [⟨strncpy [49, 48, 46, 48, 46, 48, 46, 49] 20, 1, 1⟩] ⟨9, ⟨3, 1024⟩⟩
      [49, 48, 46, 48, 46, 48, 46, 50] true
      = { ret := -4, clients := [⟨strncpy [49, 48, 46, 48, 46, 48, 46, 49] 20, 1, 1⟩],
          calls := [] } :=
  (vxi11_close_device_unknown_address [⟨strncpy [49, 48, 46, 48, 46, 48, 46, 49] 20, 1, 1⟩]
    [49, 48, 46, 48, 46, 48, 46, 50] (by decide)).1 ⟨9, ⟨3, 1024⟩⟩ true

/-- C14 (the code at the failing input): the 21-character address `long_address_b` is
opened once (transport 1, link 7), and `vxi11_close_device` is then called with that
handle for `long_address_c`, an address that was never opened and agrees with the first
in its first 20 characters.  The call does not return -4: it returns 0, issues
destroy-link and `clnt_destroy`, and unlinks the node of `long_address_b`, leaving the
registry empty.  For the never-opened address `10.0.0.1` the same call returns -4,
issues no call and leaves the registry as it was. -/
theorem vxi11_close_device_never_opened_long_address :
    long_address_c ≠ long_address_b ∧
    vxi11_open_device [] long_address_b none
      { clnt_create := some 1, create_link := some { lid := 7, maxRecvSize := 1024 } }
      = { ret := 0
          clink := some { client := 1, link := { lid := 7, maxRecvSize := 1024 } }
          clients := [⟨List.replicate 20 65, 1, 1⟩]
          calls := [RpcCall.clnt_create long_address_b (some 1),
            RpcCall.create_link 1 false 10000 none (some { lid := 7, maxRecvSize := 1024 })] } ∧
    vxi11_close_device [⟨List.replicate 20 65, 1, 1⟩]
      { client := 1, link := { lid := 7, maxRecvSize := 1024 } } long_address_c true
      = { ret := 0
          clients := []
          calls := [RpcCall.destroy_link 1 7 true, RpcCall.clnt_destroy 1] } ∧
    vxi11_close_device [⟨List.replicate 20 65, 1, 1⟩]
      { client := 1, link := { lid := 7, maxRecvSize := 1024 } } short_address true
      = { ret := -4, clients := [⟨List.replicate 20 65, 1, 1⟩], calls := [] } := by
  decide

/-- C13 (the code at the failing input): an address of 21 characters is opened twice
and closed twice.  The second open does not find the node of the first (it creates the
transport 2), and a transport is torn down at the first close (handle 1) as well as at
the second (handle 2).  For `10.0.0.1` the only `clnt_destroy` is at the second close. -/
theorem vxi11_open_device_long_address_not_shared :
    (opened_twice_closed_twice long_address_b).map (fun s => destroyed s.1)
      = [[], [], [1], [2]] ∧
    (opened_twice_closed_twice long_address_b).map (fun s => s.2.map (fun c => c.link_count))
      = [[1], [1, 1], [1], []] ∧
    (opened_twice_closed_twice short_address).map (fun s => destroyed s.1)
      = [[], [], [], [1]] ∧
    (opened_twice_closed_twice short_address).map (fun s => s.2.map (fun c => c.link_count))
      = [[1], [2], [1], []] := by
  decide

/-- C15 (the code at the failing input): `10.0.0.1` is registered with one link and is
opened again while `create_link_1` fails.  The call returns 0, hands out a handle whose
link is the zeroed structure, and leaves `link_count` at 2. -/
theorem vxi11_open_device_link_failure_not_rolled_back :
    vxi11_open_device [⟨strncpy short_address 20, 1, 1⟩] short_address (some default_device)
      { clnt_create := none, create_link := none }
      = { ret := 0
          clink := some { client := 1, link := { lid := 0, maxRecvSize := 0 } }
          clients := [⟨strncpy short_address 20, 1, 2⟩]
          calls := [RpcCall.create_link 1 false 10000 (some default_device) none] } := by
  decide

/-- C16 (the code at the failing input): with `device == NULL` the create-link call
carries the null device name, not `inst0`. -/
theorem vxi11_open_device_null_device :
    (vxi11_open_device [] short_address none
      { clnt_create := some 1, create_link := some { lid := 7, maxRecvSize := 1024 } }).calls
      = [RpcCall.clnt_create short_address (some 1),
         RpcCall.create_link 1 false 10000 none (some { lid := 7, maxRecvSize := 1024 })] ∧
    (vxi11_open_device [] short_address none
      { clnt_create := some 1, create_link := some { lid := 7, maxRecvSize := 1024 } }).calls
      ≠ [RpcCall.clnt_create short_address (some 1),
         RpcCall.create_link 1 false 10000 (some default_device)
           (some { lid := 7, maxRecvSize := 1024 })] := by
  decide

/-- C17 (the code at the failing input): after two successful opens of one address of
21 characters, starting from the empty registry, the registry holds two nodes with the
same stored address, each with `link_count` 1, while two handles are open. -/
theorem vxi11_open_device_long_address_duplicate :
    (vxi11_open_device [] long_address_b none
      { clnt_create := some 1, create_link := some { lid := 7, maxRecvSize := 1024 } }).ret = 0 ∧
    vxi11_open_device
      (vxi11_open_device [] long_address_b none
        { clnt_create := some 1, create_link := some { lid := 7, maxRecvSize := 1024 } }).clients
      long_address_b none
      { clnt_create := some 2, create_link := some { lid := 8, maxRecvSize := 1024 } }
      = { ret := 0
          clink := some { client := 2, link := { lid := 8, maxRecvSize := 1024 } }
          clients := [⟨List.replicate 20 65, 2, 1⟩, ⟨List.replicate 20 65, 1, 1⟩]
          calls := [RpcCall.clnt_create long_address_b (some 2),
            RpcCall.create_link 2 false 10000 none (some { lid := 8, maxRecvSize := 1024 })] } := by
  decide

/-- C18 (the code at the failing input): two distinct addresses of 21 characters that
agree in their first 20 are opened (transports 1 and 2).  Closing the first one unlinks
the node of the second (the one with transport 2) and keeps the node of the first, whose
transport 1 the same call has torn down; and a later open of the first address adds
another node instead of finding its own. -/
theorem vxi11_close_device_long_address_wrong_node :
    long_address_b ≠ long_address_c ∧
    (vxi11_open_device
      (vxi11_open_device [] long_address_b none
        { clnt_create := some 1, create_link := some { lid := 7, maxRecvSize := 1024 } }).clients
      long_address_c none
      { clnt_create := some 2, create_link := some { lid := 8, maxRecvSize := 1024 } }).clients
      = [⟨List.replicate 20 65, 2, 1⟩, ⟨List.replicate 20 65, 1, 1⟩] ∧
    vxi11_close_device [⟨List.replicate 20 65, 2, 1⟩, ⟨List.replicate 20 65, 1, 1⟩]
      { client := 1, link := { lid := 7, maxRecvSize := 1024 } } long_address_b true
      = { ret := 0
          clients := [⟨List.replicate 20 65, 1, 1⟩]
          calls := [RpcCall.destroy_link 1 7 true, RpcCall.clnt_destroy 1] } ∧
    (vxi11_open_device [⟨List.replicate 20 65, 2, 1⟩, ⟨List.replicate 20 65, 1, 1⟩]
      long_address_b none
      { clnt_create := some 3, create_link := some { lid := 9, maxRecvSize := 1024 } }).clients
      = [⟨List.replicate 20 65, 3, 1⟩, ⟨List.replicate 20 65, 2, 1⟩,
         ⟨List.replicate 20 65, 1, 1⟩] := by
  decide

/-! ## Send and receive -/

theorem send_and_receive_loop_retries (nullW nullR : Int) (clink : VXI11_CLINK)
    (wdev : Nat → WriteDevice) (rdev : Nat → ReadDevice) (cmd : List Nat)
    (len timeout fuel : Nat) (rs : List Device_ReadResp)
    (hW : nullW ≠ 0) (hR : 0 ≤ nullR) (hlen : len < 9223372036854775808)
    (hne : rs ≠ []) (hfuel : rs.length ≤ fuel)
    (herr : ∀ w ∈ rs, w.error = 0)
    (hterm : ∀ i w, rs[i]? = some w → (terminated w = true ↔ i + 1 = rs.length))
    (hfit : ∀ i, i < rs.length → data_len_sum rs (i + 1) ≤ len)
    (hnotfull : ∀ i, i + 1 < rs.length → data_len_sum rs (i + 1) ≠ len)
    (hpos : 0 < data_len_sum rs rs.length) :
    ∀ (k cycles k0 : Nat) (buf : List Nat), k < cycles →
      (∀ i, i < k →
        (vxi11_send nullW clink (wdev (k0 + i)) cmd (strlen cmd) fuel).ret = some 0 ∨
        (vxi11_send nullW clink (wdev (k0 + i)) cmd (strlen cmd) fuel).ret = some (-nullW)) →
      (∀ i, i < k → ∀ b,
        (vxi11_receive_timeout nullR clink (rdev (k0 + i)) b len timeout fuel).ret
          = some (-nullR)) →
      (vxi11_send nullW clink (wdev (k0 + k)) cmd (strlen cmd) fuel).ret = some 0 →
      (∀ i w p, rs[i]? = some w → rdev (k0 + k) i p = some w) →
      (vxi11_send_and_receive_loop nullW nullR clink wdev rdev cmd len timeout fuel cycles k0
        buf).ret = some 0 ∧
      (vxi11_send_and_receive_loop nullW nullR clink wdev rdev cmd len timeout fuel cycles k0
        buf).sends.length = k + 1 ∧
      (vxi11_send_and_receive_loop nullW nullR clink wdev rdev cmd len timeout fuel cycles k0
        buf).receives.length = k + 1 ∧
      (vxi11_send_and_receive_loop nullW nullR clink wdev rdev cmd len timeout fuel cycles k0
        buf).buf.take (data_len_sum rs rs.length) = reply_bytes rs := by
  intro k
  induction k with
  | zero =>
    intro cycles k0 buf hc _ _ hsend hdev
    obtain ⟨cycles, rfl⟩ : ∃ c, cycles = c + 1 := ⟨cycles - 1, by omega⟩
    obtain ⟨a1, -, -, -, a5⟩ := receive_loop_replies nullR clink (rdev (k0 + 0)) len timeout hlen
      rs fuel 0 0 buf hne hfuel (Nat.zero_le _)
      (by intro i w p h; simpa using hdev i w p h) herr hterm
      (by intro i hi; simpa using hfit i hi) (by intro i hi; simpa using hnotfull i hi)
    simp only [Nat.zero_add, List.take_zero, List.nil_append] at a1 a5
    have hr : (vxi11_receive_timeout nullR clink (rdev k0) buf len timeout fuel).ret
        = some ((data_len_sum rs rs.length : Nat) : Int) := a1
    have hb : (vxi11_receive_timeout nullR clink (rdev k0) buf len timeout fuel).buffer.take
        (data_len_sum rs rs.length) = reply_bytes rs := a5
    simp only [Nat.add_zero] at hsend
    have h1 : ¬ (((data_len_sum rs rs.length : Nat) : Int) ≤ 0 ∧
        ((data_len_sum rs rs.length : Nat) : Int) > -nullR) := by omega
    have h2 : ¬ (((data_len_sum rs rs.length : Nat) : Int) = -nullR ∨ (0 : Int) = -nullW) := by
      omega
    rw [vxi11_send_and_receive_loop]
    simp only [hsend, hr, h1, h2, ne_eq, not_true, false_and, if_false, List.length_singleton]
    exact ⟨trivial, trivial, trivial, hb⟩
  | succ k ih =>
    intro cycles k0 buf hc hs hd hsend hdev
    obtain ⟨cycles, rfl⟩ : ∃ c, cycles = c + 1 := ⟨cycles - 1, by omega⟩
    have hs0 := hs 0 (by omega)
    have hd0 := hd 0 (by omega) buf
    simp only [Nat.add_zero] at hs0 hd0
    have hrec := ih cycles (k0 + 1)
      (vxi11_receive_timeout nullR clink (rdev k0) buf len timeout fuel).buffer (by omega)
      (by
        intro i hi
        have := hs (i + 1) (by omega)
        rwa [show k0 + (i + 1) = k0 + 1 + i by omega] at this)
      (by
        intro i hi b
        have := hd (i + 1) (by omega) b
        rwa [show k0 + (i + 1) = k0 + 1 + i by omega] at this)
      (by rwa [show k0 + (k + 1) = k0 + 1 + k by omega] at hsend)
      (by
        intro i w p h
        have := hdev i w p h
        rwa [show k0 + (k + 1) = k0 + 1 + k by omega] at this)
    have h1 : ¬ (-nullR ≤ 0 ∧ -nullR > -nullR) := by omega
    rw [vxi11_send_and_receive_loop]
    rcases hs0 with hs0 | hs0
    · simp only [hs0, hd0, h1, ne_eq, not_true, false_and, if_false, true_or, if_true,
        List.length_cons]
      obtain ⟨r1, r2, r3, r4⟩ := hrec
      exact ⟨r1, by omega, by omega, r4⟩
    · have h3 : ¬ (-nullW ≠ 0 ∧ -nullW ≠ -nullW) := by
        intro h; exact h.2 rfl
      simp only [hs0, hd0, h1, h3, if_false, true_or, if_true, List.length_cons]
      obtain ⟨r1, r2, r3, r4⟩ := hrec
      exact ⟨r1, by omega, by omega, r4⟩

/-- C19 (as amended): let the first `k` cycles have a send that returns 0 or the
write-dropped sentinel and a receive that returns the read-dropped sentinel, and let
cycle `k` have a send that returns 0 and a receive answered by a reply sequence `rs` of
the kind described in C5 with `n >= 1` data bytes in all.  Then
`vxi11_send_and_receive` runs exactly `k + 1` cycles and returns 0 (not `n`), and the
caller's buffer starts with the `n` reply bytes.  (`VXI11_NULL_WRITE_RESP` is nonzero and
`VXI11_NULL_READ_RESP` is not negative.) -/
theorem vxi11_send_and_receive_retries_until_reply (nullW nullR : Int) (clink : VXI11_CLINK)
    (wdev : Nat → WriteDevice) (rdev : Nat → ReadDevice) (cmd buf : List Nat)
    (len timeout fuel cycles k : Nat) (rs : List Device_ReadResp)
    (hW : nullW ≠ 0) (hR : 0 ≤ nullR) (hlen : len < 9223372036854775808) (hcycles : k < cycles)
    (hsend : ∀ i, i < k →
      (vxi11_send nullW clink (wdev i) cmd (strlen cmd) fuel).ret = some 0 ∨
      (vxi11_send nullW clink (wdev i) cmd (strlen cmd) fuel).ret = some (-nullW))
    (hdrop : ∀ i, i < k → ∀ b,
      (vxi11_receive_timeout nullR clink (rdev i) b len timeout fuel).ret = some (-nullR))
    (hsendk : (vxi11_send nullW clink (wdev k) cmd (strlen cmd) fuel).ret = some 0)
    (hne : rs ≠ []) (hfuel : rs.length ≤ fuel)
    (hdev : ∀ i w p, rs[i]? = some w → rdev k i p = some w)
    (herr : ∀ w ∈ rs, w.error = 0)
    (hterm : ∀ i w, rs[i]? = some w → (terminated w = true ↔ i + 1 = rs.length))
    (hfit : ∀ i, i < rs.length → data_len_sum rs (i + 1) ≤ len)
    (hnotfull : ∀ i, i + 1 < rs.length → data_len_sum rs (i + 1) ≠ len)
    (hpos : 0 < data_len_sum rs rs.length) :
    (vxi11_send_and_receive nullW nullR clink wdev rdev cmd buf len timeout fuel cycles).ret
      = some 0 ∧
    (vxi11_send_and_receive nullW nullR clink wdev rdev cmd buf len timeout fuel
      cycles).sends.length = k + 1 ∧
    (vxi11_send_and_receive nullW nullR clink wdev rdev cmd buf len timeout fuel
      cycles).receives.length = k + 1 ∧
    (vxi11_send_and_receive nullW nullR clink wdev rdev cmd buf len timeout fuel
      cycles).buf.take (data_len_sum rs rs.length) = reply_bytes rs := by
  unfold vxi11_send_and_receive
  exact send_and_receive_loop_retries nullW nullR clink wdev rdev cmd len timeout fuel rs hW hR
    hlen hne hfuel herr hterm hfit hnotfull hpos k cycles 0 buf hcycles
    (by intro i hi; simpa using hsend i hi)
    (by intro i hi b; simpa using hdrop i hi b)
    (by simpa using hsendk)
    (by intro i w p h; simpa using hdev i w p h)

/-- Witness for C19: the reads of two cycles are dropped, the third cycle is answered
with `1.5`. -/
theorem vxi11_send_and_receive_retries_until_reply_witness :
    (vxi11_send_and_receive 51 50 ⟨⟨0, 4096⟩⟩ (fun _ => accept_all) dropped_twice_then_reply
      [42, 63] [0, 0, 0, 0, 0] 5 2000 3 5).ret = some 0 ∧
    (vxi11_send_and_receive 51 50 ⟨⟨0, 4096⟩⟩ (fun _ => accept_all) dropped_twice_then_reply
      [42, 63] [0, 0, 0, 0, 0] 5 2000 3 5).sends.length = 3 ∧
    (vxi11_send_and_receive 51 50 ⟨⟨0, 4096⟩⟩ (fun _ => accept_all) dropped_twice_then_reply
      [42, 63] [0, 0, 0, 0, 0] 5 2000 3 5).buf.take 3 = [49, 46, 53] := by
  have h := vxi11_send_and_receive_retries_until_reply 51 50 ⟨⟨0, 4096⟩⟩ (fun _ => accept_all)
    dropped_twice_then_reply [42, 63] [0, 0, 0, 0, 0] 5 2000 3 5 2 [⟨0, 4, [49, 46, 53]⟩]
    (by decide) (by decide) (by decide) (by decide)
    (by
      intro i _
      have h0 : (vxi11_send 51 ⟨⟨0, 4096⟩⟩ accept_all [42, 63] (strlen [42, 63]) 3).ret
          = some 0 := by decide
      exact Or.inl h0)
    (by
      intro i hi b
      have hd : dropped_twice_then_reply i = read_dropped := by
        simp [dropped_twice_then_reply, hi]
      rw [hd]
      rfl)
    (by decide) (by decide) (by decide)
    (by
      intro i w p h
      match i with
      | 0 => simpa [dropped_twice_then_reply, reply_three_bytes] using h
      | j + 1 => simp at h)
    (by decide)
    (by
      intro i w h
      match i with
      | 0 => simp at h; subst h; decide
      | j + 1 => simp at h)
    (by
      intro i hi
      match i with
      | 0 => decide
      | j + 1 => simp at hi)
    (by
      intro i hi
      exact absurd hi (by simp))
    (by decide)
  exact ⟨h.1, h.2.1, h.2.2.2⟩

/-- Counterexample to C19 as stated: one cycle, the send succeeds and the read returns
the 3 bytes `1.5`; `vxi11_send_and_receive` returns 0, not 3.  When the read returns 0
bytes (an empty reply with END), `vxi11_send_and_receive` returns -2. -/
theorem vxi11_send_and_receive_returns_zero :
    (vxi11_send_and_receive 51 50 ⟨⟨0, 4096⟩⟩ (fun _ => accept_all) (fun _ => reply_three_bytes)
      [42, 63] [0, 0, 0, 0, 0] 5 2000 3 1).receives.map (fun r => r.ret) = [some 3] ∧
    (vxi11_send_and_receive 51 50 ⟨⟨0, 4096⟩⟩ (fun _ => accept_all) (fun _ => reply_three_bytes)
      [42, 63] [0, 0, 0, 0, 0] 5 2000 3 1).ret = some 0 ∧
    (vxi11_send_and_receive 51 50 ⟨⟨0, 4096⟩⟩ (fun _ => accept_all) (fun _ => reply_three_bytes)
      [42, 63] [0, 0, 0, 0, 0] 5 2000 3 1).ret ≠ some 3 ∧
    (vxi11_send_and_receive 51 50 ⟨⟨0, 4096⟩⟩ (fun _ => accept_all) (fun _ => reply_empty)
      [42, 63] [0, 0, 0, 0, 0] 5 2000 3 1).receives.map (fun r => r.ret) = [some 0] ∧
    (vxi11_send_and_receive 51 50 ⟨⟨0, 4096⟩⟩ (fun _ => accept_all) (fun _ => reply_empty)
      [42, 63] [0, 0, 0, 0, 0] 5 2000 3 1).ret = some (-2) := by
  decide

/-- C20 (the code at the failing input): when, in the first cycle, the send returns 0
and the receive fails with a value below `-VXI11_NULL_READ_RESP` (the buffer-too-small
code -100 when the sentinel is smaller than 100, or a device error code larger than the
sentinel), `vxi11_send_and_receive` returns 0 after that one cycle. -/
theorem vxi11_send_and_receive_masks_read_error (nullW nullR : Int) (clink : VXI11_CLINK)
    (wdev : Nat → WriteDevice) (rdev : Nat → ReadDevice) (cmd buf : List Nat)
    (len timeout fuel cycles : Nat) (v : Int) (hW : nullW ≠ 0) (hcycles : 0 < cycles)
    (hsend : (vxi11_send nullW clink (wdev 0) cmd (strlen cmd) fuel).ret = some 0)
    (hrecv : (vxi11_receive_timeout nullR clink (rdev 0) buf len timeout fuel).ret = some v)
    (hneg : v < 0) (hv : v < -nullR) :
    (vxi11_send_and_receive nullW nullR clink wdev rdev cmd buf len timeout fuel cycles).ret
      = some 0 ∧
    (vxi11_send_and_receive nullW nullR clink wdev rdev cmd buf len timeout fuel
      cycles).sends.length = 1 := by
  obtain ⟨cycles, rfl⟩ : ∃ c, cycles = c + 1 := ⟨cycles - 1, by omega⟩
  have h1 : ¬ (v ≤ 0 ∧ v > -nullR) := by omega
  have h2 : ¬ (v = -nullR ∨ (0 : Int) = -nullW) := by omega
  unfold vxi11_send_and_receive
  rw [vxi11_send_and_receive_loop]
  simp only [hsend, hrecv, h1, h2, ne_eq, not_true, false_and, if_false, List.length_singleton]
  exact ⟨trivial, trivial⟩

/-- Witness for C20: with the sentinel 50, a one-byte buffer is filled by a reply
without END or TERMCHAR; the receive returns -100 and `vxi11_send_and_receive`
returns 0. -/
theorem vxi11_send_and_receive_masks_read_error_witness :
    (vxi11_receive_timeout 50 ⟨⟨0, 4096⟩⟩ reply_one_byte_unflagged [0] 1 2000 3).ret
      = some (-100) ∧
    (vxi11_send_and_receive 51 50 ⟨⟨0, 4096⟩⟩ (fun _ => accept_all)
      (fun _ => reply_one_byte_unflagged) [42, 63] [0] 1 2000 3 1).ret = some 0 :=
  ⟨by decide,
   (vxi11_send_and_receive_masks_read_error 51 50 ⟨⟨0, 4096⟩⟩ (fun _ => accept_all)
      (fun _ => reply_one_byte_unflagged) [42, 63] [0] 1 2000 3 1 (-100) (by decide) (by decide)
      (by decide) (by decide) (by decide) (by decide)).1⟩

/-! ## Numeric reply -/

theorem dropWhile_isspace_append (sp x : List Nat) (h : ∀ c ∈ sp, isspace c = true) :
    (sp ++ x).dropWhile isspace = x.dropWhile isspace := by
  induction sp with
  | nil => rfl
  | cons c sp ih =>
    rw [List.cons_append, List.dropWhile_cons, h c (by simp)]
    simp only [if_true]
    exact ih (fun d hd => h d (List.mem_cons_of_mem _ hd))

theorem takeWhile_isdigit_stop (t : List Nat) (h : ∀ c, t.head? = some c → isdigit c = false) :
    t.takeWhile isdigit = [] := by
  cases t with
  | nil => rfl
  | cons c t =>
    rw [List.takeWhile_cons, h c rfl]
    simp

theorem takeWhile_isdigit_append (ds t : List Nat) (hd : ∀ d ∈ ds, 48 ≤ d ∧ d ≤ 57)
    (ht : ∀ c, t.head? = some c → isdigit c = false) :
    (ds ++ t).takeWhile isdigit = ds := by
  induction ds with
  | nil => exact takeWhile_isdigit_stop t ht
  | cons d ds ih =>
    have h1 := hd d (by simp)
    have : isdigit d = true := by simp [isdigit, h1.1, h1.2]
    rw [List.cons_append, List.takeWhile_cons, this]
    simp only [if_true]
    rw [ih (fun e he => hd e (List.mem_cons_of_mem _ he))]

theorem isspace_false_of_digit_or_sign (c : Nat) (h : 43 ≤ c) : isspace c = false := by
  simp only [isspace, Bool.or_eq_false_iff, beq_eq_false_iff_ne, ne_eq,
    Bool.and_eq_false_iff, decide_eq_false_iff_not]
  omega

theorem clamp_long_of_range (x : Int) (h1 : -9223372036854775808 ≤ x)
    (h2 : x ≤ 9223372036854775807) : clamp_long x = x := by
  unfold clamp_long
  rw [if_neg (by omega), if_neg (by omega)]

theorem strtol_no_digits (sp sg t : List Nat) (hsp : ∀ c ∈ sp, isspace c = true)
    (hsg : sg = [] ∨ sg = [43] ∨ sg = [45])
    (ht : ∀ c, t.head? = some c →
      isdigit c = false ∧ (sg = [] → isspace c = false ∧ c ≠ 43 ∧ c ≠ 45)) :
    strtol (sp ++ sg ++ t) = 0 := by
  have htd : t.takeWhile isdigit = [] := takeWhile_isdigit_stop t (fun c hc => (ht c hc).1)
  unfold strtol
  rw [List.append_assoc, dropWhile_isspace_append sp _ hsp]
  rcases hsg with rfl | rfl | rfl
  · cases t with
    | nil => rfl
    | cons c t =>
      obtain ⟨h1, h2⟩ := ht c rfl
      obtain ⟨h3, h4, h5⟩ := h2 rfl
      rw [List.nil_append, List.dropWhile_cons, h3]
      simp only [Bool.false_eq_true, if_false, h4, h5, htd]
      rfl
  · rw [List.singleton_append, List.dropWhile_cons, isspace_false_of_digit_or_sign 43 (by omega)]
    simp only [Bool.false_eq_true, if_false, htd]
    rfl
  · rw [List.singleton_append, List.dropWhile_cons, isspace_false_of_digit_or_sign 45 (by omega)]
    simp only [Bool.false_eq_true, if_false, if_true, htd]
    rfl

theorem strtol_digits (sp sg ds t : List Nat) (hsp : ∀ c ∈ sp, isspace c = true)
    (hsg : sg = [] ∨ sg = [43] ∨ sg = [45]) (hne : ds ≠ [])
    (hds : ∀ d ∈ ds, 48 ≤ d ∧ d ≤ 57)
    (ht : ∀ c, t.head? = some c → isdigit c = false)
    (hfit : digits_value ds < 9223372036854775808) :
    strtol (sp ++ sg ++ ds ++ t)
      = if sg = [45] then -(digits_value ds : Int) else (digits_value ds : Int) := by
  have htk := takeWhile_isdigit_append ds t hds ht
  unfold strtol
  rw [List.append_assoc, List.append_assoc, dropWhile_isspace_append sp _ hsp]
  rcases hsg with rfl | rfl | rfl
  · cases ds with
    | nil => exact absurd rfl hne
    | cons d ds =>
      have hd := hds d (by simp)
      rw [List.nil_append, List.cons_append, List.dropWhile_cons,
        isspace_false_of_digit_or_sign d (by omega)]
      have h45 : d ≠ 45 := by omega
      have h43 : d ≠ 43 := by omega
      rw [List.cons_append] at htk
      simp only [Bool.false_eq_true, if_false, h45, h43, htk]
      rw [clamp_long_of_range _ (by omega) (by omega)]
      simp
  · have hc := clamp_long_of_range (digits_value ds : Int) (by omega) (by omega)
    rw [List.singleton_append, List.dropWhile_cons, isspace_false_of_digit_or_sign 43 (by omega)]
    simp [htk, hc]
  · have hc := clamp_long_of_range (-(digits_value ds : Int)) (by omega) (by omega)
    rw [List.singleton_append, List.dropWhile_cons, isspace_false_of_digit_or_sign 45 (by omega)]
    simp [htk, hc]

/-- C21: `vxi11_obtain_long_value_timeout` returns 0 whenever `vxi11_send_and_receive`
returns a nonzero value.  When it returns 0, the text it left in `buf` decides: white
space and an optional sign followed by no digit (as in `nonsense-reply`) give 0; white
space, an optional sign and a run of digits give that integer, negated after `-` (the
integer is taken to fit a `long`). -/
theorem vxi11_obtain_long_value_timeout_fallback (nullW nullR : Int) (clink : VXI11_CLINK)
    (wdev : Nat → WriteDevice) (rdev : Nat → ReadDevice) (cmd : List Nat)
    (timeout fuel cycles : Nat) :
    (∀ r, (vxi11_send_and_receive nullW nullR clink wdev rdev cmd (List.replicate 50 0) 50
        timeout fuel cycles).ret = some r → r ≠ 0 →
      vxi11_obtain_long_value_timeout nullW nullR clink wdev rdev cmd timeout fuel cycles
        = some 0) ∧
    ((vxi11_send_and_receive nullW nullR clink wdev rdev cmd (List.replicate 50 0) 50
        timeout fuel cycles).ret = some 0 →
      (∀ sp sg t : List Nat,
        (vxi11_send_and_receive nullW nullR clink wdev rdev cmd (List.replicate 50 0) 50
          timeout fuel cycles).buf = sp ++ sg ++ t →
        (∀ c ∈ sp, isspace c = true) → (sg = [] ∨ sg = [43] ∨ sg = [45]) →
        (∀ c, t.head? = some c →
          isdigit c = false ∧ (sg = [] → isspace c = false ∧ c ≠ 43 ∧ c ≠ 45)) →
        vxi11_obtain_long_value_timeout nullW nullR clink wdev rdev cmd timeout fuel cycles
          = some 0) ∧
      (∀ sp sg ds t : List Nat,
        (vxi11_send_and_receive nullW nullR clink wdev rdev cmd (List.replicate 50 0) 50
          timeout fuel cycles).buf = sp ++ sg ++ ds ++ t →
        (∀ c ∈ sp, isspace c = true) → (sg = [] ∨ sg = [43] ∨ sg = [45]) → ds ≠ [] →
        (∀ d ∈ ds, 48 ≤ d ∧ d ≤ 57) → (∀ c, t.head? = some c → isdigit c = false) →
        digits_value ds < 9223372036854775808 →
        vxi11_obtain_long_value_timeout nullW nullR clink wdev rdev cmd timeout fuel cycles
          = some (if sg = [45] then -(digits_value ds : Int) else (digits_value ds : Int)))) := by
  refine ⟨?_, ?_⟩
  · intro r hr hne
    simp only [vxi11_obtain_long_value_timeout, hr, hne, ne_eq, not_false_eq_true, if_true]
  · intro h0
    have hobt : vxi11_obtain_long_value_timeout nullW nullR clink wdev rdev cmd timeout fuel
        cycles = some (strtol (vxi11_send_and_receive nullW nullR clink wdev rdev cmd
          (List.replicate 50 0) 50 timeout fuel cycles).buf) := by
      simp only [vxi11_obtain_long_value_timeout, h0, ne_eq, not_true, if_false]
    refine ⟨?_, ?_⟩
    · intro sp sg t hbuf hsp hsg ht
      rw [hobt, hbuf, strtol_no_digits sp sg t hsp hsg ht]
    · intro sp sg ds t hbuf hsp hsg hne hds ht hfit
      rw [hobt, hbuf, strtol_digits sp sg ds t hsp hsg hne hds ht hfit]

/-- Witness for C21: an I/O timeout on the read gives 0, the reply `nonsense-reply`
gives 0, and the reply `-42` gives -42. -/
theorem vxi11_obtain_long_value_timeout_fallback_witness :
    vxi11_obtain_long_value_timeout 51 50 ⟨⟨0, 4096⟩⟩ (fun _ => accept_all)
      (fun _ => read_timeout) [42, 63] 2000 3 1 = some 0 ∧
    vxi11_obtain_long_value_timeout 51 50 ⟨⟨0, 4096⟩⟩ (fun _ => accept_all)
      (fun _ => reply_nonsense) [42, 63] 2000 3 1 = some 0 ∧
    vxi11_obtain_long_value_timeout 51 50 ⟨⟨0, 4096⟩⟩ (fun _ => accept_all)
      (fun _ => reply_minus_42) [42, 63] 2000 3 1 = some (-42) :=
  ⟨(vxi11_obtain_long_value_timeout_fallback 51 50 ⟨⟨0, 4096⟩⟩ (fun _ => accept_all)
      (fun _ => read_timeout) [42, 63] 2000 3 1).1 (-2) (by decide) (by decide),
   ((vxi11_obtain_long_value_timeout_fallback 51 50 ⟨⟨0, 4096⟩⟩ (fun _ => accept_all)
      (fun _ => reply_nonsense) [42, 63] 2000 3 1).2 (by decide)).1 [] []
      (nonsense_reply ++ List.replicate 36 0) (by decide) (by decide) (by decide) (by decide),
   ((vxi11_obtain_long_value_timeout_fallback 51 50 ⟨⟨0, 4096⟩⟩ (fun _ => accept_all)
      (fun _ => reply_minus_42) [42, 63] 2000 3 1).2 (by decide)).2 [] [45] [52, 50]
      (10 :: List.replicate 46 0) (by decide) (by decide) (by decide) (by decide) (by decide)
      (by decide) (by decide)⟩

/-! ## Partial acceptance -/

theorem send_loop_accept_two (nullW lid : Int) (sc : List Nat) (len : Nat) :
    ∀ (fuel n bl : Nat), bl % 2 = 1 → bl < 4294967296 →
      (vxi11_send_loop nullW ⟨⟨lid, 0⟩⟩ accept_two sc len fuel n bl).ret = none ∧
      ∀ c ∈ (vxi11_send_loop nullW ⟨⟨lid, 0⟩⟩ accept_two sc len fuel n bl).calls,
        c.1.data_len = 4096 ∧ c.2 = some { error := 0, size := 2 } := by
  intro fuel
  induction fuel with
  | zero => intro n bl _ _; exact ⟨rfl, by simp [vxi11_send_loop]⟩
  | succ fuel ih =>
    intro n bl hmod hbl
    have hp : (write_parms_of ⟨⟨lid, 0⟩⟩ len bl).data_len = 4096 := by
      have : ¬ bl ≤ 0 := by omega
      simp [write_parms_of, this]
    have hs : 0 < u32 ((bl : Int) - 2) ∧ u32 ((bl : Int) - 2) % 2 = 1 ∧
        u32 ((bl : Int) - 2) < 4294967296 := by
      unfold u32; omega
    have hrec := ih (n + 1) (u32 ((bl : Int) - 2)) hs.2.1 hs.2.2
    simp only [vxi11_send_loop, accept_two, ne_eq, not_true, if_false]
    simp only [Nat.cast_ofNat, gt_iff_lt, hs.1, if_true, List.mem_cons]
    refine ⟨hrec.1, ?_⟩
    intro c hc
    rcases hc with hc | hc
    · rw [hc]; exact ⟨hp, rfl⟩
    · exact hrec.2 c hc

theorem send_loop_partial (nullW : Int) (clink : VXI11_CLINK) (dev : WriteDevice)
    (sc : List Nat) (len : Nat) (hM : 0 < clink.link.maxRecvSize) (hlen : len < 4294967296)
    (hdev : ∀ n p, ∃ w, dev n p = some w ∧ w.error = 0 ∧ w.size ≤ p.data_len ∧
      (0 < p.data_len → 0 < w.size)) :
    ∀ (fuel n bl : Nat), bl ≤ len → bl < fuel →
      (vxi11_send_loop nullW clink dev sc len fuel n bl).ret = some 0 ∧
      (accepted_sizes (vxi11_send_loop nullW clink dev sc len fuel n bl).calls).sum = bl ∧
      accepted_bytes sc (vxi11_send_loop nullW clink dev sc len fuel n bl).calls
        = (sc.drop (len - bl)).take bl := by
  intro fuel
  induction fuel with
  | zero => intro n bl _ h; omega
  | succ fuel ih =>
    intro n bl hbl hfuel
    obtain ⟨w, hw, he, hsz, hpos⟩ := hdev n (write_parms_of clink len bl)
    have hdl : (write_parms_of clink len bl).data_len ≤ bl := by
      unfold write_parms_of
      split
      · exact Nat.le_refl _
      · simp only [hM, if_true]
        have : u32 (clink.link.maxRecvSize : Int) = clink.link.maxRecvSize :=
          u32_of_lt _ (by omega)
        rw [this]; omega
    have hdl0 : 0 < bl → 0 < (write_parms_of clink len bl).data_len := by
      intro h
      unfold write_parms_of
      split
      · exact h
      · simp only [hM, if_true]
        have : u32 (clink.link.maxRecvSize : Int) = clink.link.maxRecvSize :=
          u32_of_lt _ (by omega)
        rw [this]; exact hM
    have hdv : (write_parms_of clink len bl).data_val = len - bl := by
      have : u64 ((len : Int) - bl) = len - bl := by unfold u64; omega
      unfold write_parms_of
      split <;> exact this
    have hsub : u32 ((bl : Int) - w.size) = bl - w.size :=
      u32_sub_of_le _ _ (by omega) (by omega)
    have hfrag : (fragment_bytes sc (write_parms_of clink len bl)).take w.size
        = (sc.drop (len - bl)).take w.size := by
      unfold fragment_bytes
      rw [hdv, List.take_take, Nat.min_eq_left hsz]
    rw [vxi11_send_loop]
    simp only [hw, he, ne_eq, not_true, if_false, hsub]
    by_cases hz : bl - w.size > 0
    · have hwpos : 0 < w.size := hpos (hdl0 (by omega))
      obtain ⟨h1, h2, h3⟩ := ih (n + 1) (bl - w.size) (by omega) (by omega)
      simp only [hz, if_true]
      refine ⟨h1, ?_, ?_⟩
      · simp only [accepted_sizes, List.map_cons, List.sum_cons] at h2 ⊢
        rw [h2]; omega
      · simp only [accepted_bytes, hfrag, h3]
        have e1 : len - (bl - w.size) = (len - bl) + w.size := by omega
        have e2 : w.size + (bl - w.size) = bl := by omega
        have e3 := List.take_add (sc.drop (len - bl)) w.size (bl - w.size)
        rw [e2] at e3
        rw [e1, ← List.drop_drop, e3]
    · have hbw : bl = w.size := by omega
      simp only [hz, if_false]
      refine ⟨trivial, ?_, ?_⟩
      · simp [accepted_sizes, hbw]
      · simp only [accepted_bytes, hfrag, List.append_nil]
        rw [← hbw]

/-- C22 (the code at the failing input): with `maxRecvSize = 0`, a one-byte payload and
a remote that reports two bytes accepted of every fragment, each device-write requests
4096 bytes, so the acceptance of 2 lies between 1 and the requested length; `bytes_left`
goes from 1 to `2^32 - 1` and stays odd, and `vxi11_send` has not returned whatever the
step budget, all of which is spent on device-write calls. -/
theorem vxi11_send_zero_maxRecvSize_partial_acceptance (nullW lid : Int) (fuel : Nat) :
    (∀ c ∈ (vxi11_send nullW ⟨⟨lid, 0⟩⟩ accept_two [65] 1 fuel).calls,
      c.1.data_len = 4096 ∧ c.2 = some { error := 0, size := 2 }) ∧
    (vxi11_send nullW ⟨⟨lid, 0⟩⟩ accept_two [65] 1 fuel).ret = none ∧
    (vxi11_send nullW ⟨⟨lid, 0⟩⟩ accept_two [65] 1 fuel).calls.length = fuel := by
  have h := send_loop_accept_two nullW lid ([65].take 1) 1 fuel 0 (u32 1) (by decide)
    (by decide)
  refine ⟨h.2, h.1, ?_⟩
  exact send_loop_runs_on nullW _ accept_two _ 1 fuel 0 (u32 1) h.1

/-- Partial acceptance on a link with `maxRecvSize > 0`: when every device-write
completes with error code 0 and reports at most the requested fragment length, and at
least one byte of a non-empty fragment, a payload of `len < 2^32` bytes is sent in at
most `len` calls (one for an empty payload): `vxi11_send` returns 0, the accepted counts
sum to `len`, and the accepted bytes, in order, are the first `len` bytes of `cmd`. -/
theorem vxi11_send_partial_acceptance (nullW : Int) (clink : VXI11_CLINK) (dev : WriteDevice)
    (cmd : List Nat) (len fuel : Nat) (hM : 0 < clink.link.maxRecvSize)
    (hlen : len < 4294967296) (hfuel : len < fuel)
    (hdev : ∀ n p, ∃ w, dev n p = some w ∧ w.error = 0 ∧ w.size ≤ p.data_len ∧
      (0 < p.data_len → 0 < w.size)) :
    (vxi11_send nullW clink dev cmd len fuel).ret = some 0 ∧
    (accepted_sizes (vxi11_send nullW clink dev cmd len fuel).calls).sum = len ∧
    accepted_bytes (cmd.take len) (vxi11_send nullW clink dev cmd len fuel).calls
      = cmd.take len := by
  have h := send_loop_partial nullW clink dev (cmd.take len) len hM hlen hdev fuel 0 len
    (Nat.le_refl _) hfuel
  unfold vxi11_send
  rw [u32_of_lt len hlen]
  refine ⟨h.1, h.2.1, ?_⟩
  rw [h.2.2, Nat.sub_self, List.drop_zero, List.take_take, Nat.min_self]

/-- The remote of `accept_one_byte` meets the conditions of `vxi11_send_partial_acceptance`:
the three bytes `ABC` go out one per call on a link with `maxRecvSize = 2`. -/
theorem vxi11_send_partial_acceptance_witness :
    (vxi11_send 51 ⟨⟨0, 2⟩⟩ accept_one_byte [65, 66, 67] 3 4).ret = some 0 ∧
    (accepted_sizes (vxi11_send 51 ⟨⟨0, 2⟩⟩ accept_one_byte [65, 66, 67] 3 4).calls).sum = 3 ∧
    accepted_bytes ([65, 66, 67].take 3)
        (vxi11_send 51 ⟨⟨0, 2⟩⟩ accept_one_byte [65, 66, 67] 3 4).calls
      = [65, 66, 67].take 3 :=
  vxi11_send_partial_acceptance 51 ⟨⟨0, 2⟩⟩ accept_one_byte [65, 66, 67] 3 4 (by decide)
    (by decide) (by decide) (by
      intro n p
      refine ⟨{ error := 0, size := min 1 p.data_len }, rfl, rfl, Nat.min_le_right _ _, ?_⟩
      intro h
      exact Nat.lt_min.mpr ⟨Nat.one_pos, h⟩)

/-! ## Declared length of a block -/

theorem digits_value_lt (ds : List Nat) (h : ∀ d ∈ ds, 48 ≤ d ∧ d ≤ 57) :
    digits_value ds < 10 ^ ds.length := by
  induction ds using List.reverseRecOn with
  | nil => simp [digits_value]
  | append_singleton ds d ih =>
    have h1 := ih (fun e he => h e (List.mem_append_left _ he))
    have h2 := h d (by simp)
    rw [digits_value_append_digit, List.length_append, List.length_singleton, pow_succ]
    omega

theorem data_block_decode_declared (d : Nat) (ds rest : List Nat) (hd1 : 1 ≤ d) (hd9 : d ≤ 9)
    (hlen : ds.length = d) (hds : ∀ x ∈ ds, 48 ≤ x ∧ x ≤ 57) :
    data_block_decode (35 :: (48 + d) :: (ds ++ rest))
      = some { ret := (digits_value ds : Int), copied := rest.take (digits_value ds) } := by
  have hne : ds ≠ [] := by
    intro h; rw [h] at hlen; simp at hlen; omega
  have hs1 : scan_number 1 ((48 + d) :: (ds ++ rest)) = some ((d : Int), ds ++ rest) := by
    have h := scan_number_digits [48 + d] (ds ++ rest) (by simp) (by
      intro x hx
      simp only [List.mem_singleton] at hx
      omega)
    have hv : digits_value [48 + d] = d := by simp [digits_value]
    rw [hv] at h
    exact h
  have hs2 : scan_number d (ds ++ rest) = some ((digits_value ds : Int), rest) := by
    rw [← hlen]; exact scan_number_digits ds rest hne hds
  have hlt : digits_value ds < 1000000000 := by
    have h := digits_value_lt ds hds
    have hp : 10 ^ ds.length ≤ 10 ^ 9 := Nat.pow_le_pow_right (by decide) (by omega)
    omega
  have hu : u64 (digits_value ds : Int) = digits_value ds := by unfold u64; omega
  have ht : toInt64 (digits_value ds) = (digits_value ds : Int) := toInt64_of_lt _ (by omega)
  have hpos : (d : Int) > 0 := by omega
  have hdrop : (35 :: (48 + d) :: (ds ++ rest)).drop (d + 2) = rest := by
    rw [← hlen]
    simp
  simp only [data_block_decode, List.head?_cons, ne_eq, not_true, if_false, List.drop_succ_cons,
    List.drop_zero, hs1, hpos, if_true, Int.toNat_ofNat, hs2, hu, ht, hdrop]

/-- The count `vxi11_receive_data_block` returns and copies does not depend on `len` or
on the number of bytes received: whenever the receive succeeds (with a byte count that
fits the `int` it is stored in) and `in_buffer` holds `#`, a digit `d` in 1..9 and `d`
digits, the function returns the number the `d` digits denote and copies that many
bytes from offset `d + 2` of `in_buffer`. -/
theorem vxi11_receive_data_block_declared_count (nullR : Int) (clink : VXI11_CLINK)
    (dev : ReadDevice) (in_buffer : List Nat) (len timeout fuel : Nat) (bytes : Int)
    (d : Nat) (ds rest : List Nat)
    (hret : (vxi11_receive_timeout nullR clink dev in_buffer (u64 (len + 12)) timeout fuel).ret
      = some bytes)
    (h0 : 0 ≤ bytes) (h1 : bytes < 2147483648)
    (hbuf : (vxi11_receive_timeout nullR clink dev in_buffer (u64 (len + 12)) timeout
      fuel).buffer = 35 :: (48 + d) :: (ds ++ rest))
    (hd1 : 1 ≤ d) (hd9 : d ≤ 9) (hlen : ds.length = d) (hds : ∀ x ∈ ds, 48 ≤ x ∧ x ≤ 57) :
    vxi11_receive_data_block nullR clink dev in_buffer len timeout fuel
      = some (some { ret := (digits_value ds : Int), copied := rest.take (digits_value ds) }) := by
  have ht : toInt32 bytes = bytes := toInt32_of_range bytes (by omega) h1
  have hn : ¬ bytes < 0 := by omega
  simp only [vxi11_receive_data_block, hret, ht, hn, if_false, hbuf,
    data_block_decode_declared d ds rest hd1 hd9 hlen hds]

/-- The reply `#15hello` read into a two-byte buffer is an instance of
`vxi11_receive_data_block_declared_count`. -/
theorem vxi11_receive_data_block_declared_count_witness :
    vxi11_receive_data_block 50 ⟨⟨0, 4096⟩⟩ reply_block_hello (List.replicate 14 0) 2 2000 1
      = some (some { ret := (digits_value [53] : Int),
                     copied := ([104, 101, 108, 108, 111] ++ List.replicate 6 0).take
                       (digits_value [53]) }) :=
  vxi11_receive_data_block_declared_count 50 ⟨⟨0, 4096⟩⟩ reply_block_hello
    (List.replicate 14 0) 2 2000 1 8 1 [53] ([104, 101, 108, 108, 111] ++ List.replicate 6 0)
    (by decide) (by decide) (by decide) (by decide) (by decide) (by decide) (by decide)
    (by decide)

/-- C23 (the code at the failing inputs): the reply `#15hello` received with `len = 2`
makes `vxi11_receive_data_block` return 5 and copy the five bytes `hello` to the
caller's two-byte buffer; the reply `#19ab` received with `len = 9` (the receive returns
5, so two bytes follow the three-byte header) makes it return 9 and copy nine bytes, of
which seven are bytes of `in_buffer` that no reply wrote. -/
theorem vxi11_receive_data_block_exceeds_capacity :
    vxi11_receive_data_block 50 ⟨⟨0, 4096⟩⟩ reply_block_hello (List.replicate 14 0) 2 2000 1
      = some (some { ret := 5, copied := [104, 101, 108, 108, 111] }) ∧
    (vxi11_receive_timeout 50 ⟨⟨0, 4096⟩⟩ reply_block_short (List.replicate 21 0) 21 2000
      1).ret = some 5 ∧
    vxi11_receive_data_block 50 ⟨⟨0, 4096⟩⟩ reply_block_short (List.replicate 21 0) 9 2000 1
      = some (some { ret := 9, copied := [97, 98, 0, 0, 0, 0, 0, 0, 0] }) := by
  decide

end Vxi11
